import Mathlib

set_option maxHeartbeats 1000000

/-!
Shallow embedding of the two posting scripts of this repository
(`twitter_post.py` and `zhihu_post.py`).

Every browser / console action the scripts perform is recorded as an event
in a trace; each asynchronous playwright operation that can fail is an
`Except String` value supplied by an environment record describing the
remote browser.  A script run is a value of `M α`: the returned value (or
an uncaught exception) together with the trace of performed effects, so
Python `try`/`except` becomes `tryCatchM` and an escaped exception is an
`Except.error` result.
-/

/-- Console and browser effects performed by the scripts, recorded in a trace. -/
inductive Ev where
  | printLn (s : String)
  | connect (url : String)
  | newPage
  | goto (url : String)
  | probe (sel : String)
  | waitSelector (sel : String)
  | readBtn (i : Nat)
  | click
  | fill (text : String)
  | typeKeys (text : String)
  | press (key : String)
  | sleep (ms : Nat)
  | scroll
  | screenshot (path : String)
  | closePage
deriving DecidableEq

/-- A script computation: result (or uncaught exception) plus effect trace. -/
structure M (α : Type) where
  res : Except String α
  trace : List Ev

instance : Monad M where
  pure a := ⟨Except.ok a, []⟩
  bind m k :=
    match m.res with
    | Except.error e => ⟨Except.error e, m.trace⟩
    | Except.ok a => ⟨(k a).res, m.trace ++ (k a).trace⟩

/-- Record one effect. -/
def emit (e : Ev) : M Unit := ⟨Except.ok (), [e]⟩

/-- Python `print(...)`. -/
def emitP (s : String) : M Unit := emit (Ev.printLn s)

/-- Await a fallible browser operation whose outcome the environment dictates. -/
def liftE (x : Except String α) : M α := ⟨x, []⟩

/-- Python `try`/`except Exception`: effects performed before the exception
are kept, then the handler runs; an exception raised by the handler itself
escapes. -/
def tryCatchM (body : M α) (handler : String → M α) : M α :=
  match body.res with
  | Except.ok a => ⟨Except.ok a, body.trace⟩
  | Except.error e => ⟨(handler e).res, body.trace ++ (handler e).trace⟩

/-- Python `finally`: `fin` runs whether `m` returned or raised; if `fin`
itself raises, its exception replaces `m`'s outcome. -/
def tryFinallyM (m : M α) (fin : M Unit) : M α :=
  match fin.res with
  | Except.error e => ⟨Except.error e, m.trace ++ fin.trace⟩
  | Except.ok _ => ⟨m.res, m.trace ++ fin.trace⟩

/-- Python truthiness of an optional string (`if args.x:`): present and non-empty. -/
def truthyOpt : Option String → Bool
  | none => false
  | some s => s ≠ ""

/-- Python truthiness of `get_attribute` results (`if is_disabled:`). -/
def truthyAttr : Option String → Bool
  | none => false
  | some s => s ≠ ""

/-- Substring occurrence on char lists (for Python's `needle in haystack`). -/
def listContains (needle : List Char) : List Char → Bool
  | [] => needle.isPrefixOf []
  | c :: rest => needle.isPrefixOf (c :: rest) || listContains needle rest

/-- Python `needle in haystack` on strings. -/
def pyIn (needle haystack : String) : Bool := listContains needle.data haystack.data

/-- Python slice `s[:n]`. -/
def pyTake (s : String) (n : Nat) : String := String.mk (s.data.take n)

/-- Python `str.strip()`: drop leading and trailing whitespace. -/
def pyStrip (s : String) : String :=
  String.mk
    (((s.data.dropWhile Char.isWhitespace).reverse.dropWhile Char.isWhitespace).reverse)

deriving instance DecidableEq for Except

/-- Python `s.split(sep)` for non-empty `sep`: fuelled scan, one unit per
step, so the function reduces by iota; `pySplit` supplies enough fuel. -/
def pySplitFuel (sep : List Char) : Nat → List Char → List Char → List (List Char)
  | 0, rest, acc => [acc.reverse ++ rest]
  | fuel + 1, l, acc =>
    match l with
    | [] => [acc.reverse]
    | c :: rest =>
      if sep.isPrefixOf (c :: rest) then
        acc.reverse :: pySplitFuel sep fuel ((c :: rest).drop sep.length) []
      else pySplitFuel sep fuel rest (c :: acc)

/-- Python `s.split(sep)`. -/
def pySplit (s sep : String) : List String :=
  (pySplitFuel sep.data (s.data.length + 1) s.data []).map String.mk

/-! ## Twitter script (`twitter_post.py`) -/

def CDP_URL : String := "http://127.0.0.1:18800"

def tweetNoTextboxStr : String :=
  "❌ Could not find tweet textbox. Screenshot saved to /tmp/twitter_debug.png"

def tweetUncertainStr : String :=
  "⚠️  Uncertain if posted. Screenshot saved to /tmp/twitter_debug.png"

def replySel1 : String := "[data-testid=\"reply\"]"
def replySel2 : String := "button[aria-label*=\"Reply\"]"
def tweetSel1 : String := "[data-testid=\"tweetTextarea_0\"]"
def tweetSel2 : String := "div[role=\"dialog\"] [data-testid=\"tweetTextarea_0\"]"
def tweetSel3 : String := "[aria-label=\"Post text\"]"
def alertSel : String := "text=\"Your post was sent.\""
def replyAlertSel : String := "text=\"Your reply was sent.\""

def buttonSelectors : List String :=
  ["div[role=\"dialog\"] button[data-testid=\"tweetButton\"]",
   "button[data-testid=\"tweetButton\"]",
   "button[data-testid=\"tweetButtonInline\"]",
   "div[role=\"dialog\"] button:has-text(\"Reply\")",
   "div[role=\"dialog\"] button:has-text(\"Post\")"]

/-- The remote browser as seen by `twitter_post.py`: each fallible playwright
await is an `Except` outcome, each locator count a number of matches.
`alertSent1`/`replySent1` are the success-alert counts right after the
Ctrl+Enter attempt, `alertSent2`/`replySent2` those at the final check.
`newPage` is `context.new_page()` (line 62, outside any `try`),
`handlerShot` the screenshot taken inside the catch-all handler (line 163),
`pageClose` the `finally` block's `page.close()` (line 166): each of these
can raise with no handler around it. -/
structure TwitterEnv where
  connect : Except String Unit
  contextsNonempty : Bool
  newPage : Except String Unit
  gotoReply : Except String Unit
  gotoCompose : Except String Unit
  count : String → Nat
  clickReply : Except String Unit
  alertSent1 : Nat
  replySent1 : Nat
  alertSent2 : Nat
  replySent2 : Nat
  btnAttr : String → Except String (Option String)
  btnClick : String → Except String Unit
  handlerShot : Except String Unit
  pageClose : Except String Unit

/-- The success-alert check `await alert.count() or await reply_alert.count()`
(lines 124 and 155 of `twitter_post.py`): Python `or` short-circuits, so the
reply alert is only counted when the post alert found nothing. -/
def alertCheck (a r : Nat) : M Bool := do
  emit (Ev.probe alertSel)
  if a ≠ 0 then pure true
  else do
    emit (Ev.probe replyAlertSel)
    pure (decide (r ≠ 0))

/-- The publish-button fallback loop (lines 131-151 of `twitter_post.py`):
for each selector in order, if it matches, read its `disabled` attribute
(skip if truthy), click and stop; any exception is printed and the next
selector is tried. Returns after the first successful click. -/
def buttonLoop (env : TwitterEnv) : List String → M Unit
  | [] => pure ()
  | sel :: rest => do
    emit (Ev.probe sel)
    if env.count sel ≠ 0 then do
      let brk ← tryCatchM
        (do
          let attr ← liftE (env.btnAttr sel)
          if truthyAttr attr then
            pure false
          else do
            emit Ev.click
            liftE (env.btnClick sel)
            emitP s!"✅ Clicked: {sel}"
            emit (Ev.sleep 3000)
            pure true)
        (fun e => do
          emitP s!"⚠️  Failed {sel}: {e}"
          pure false)
      if brk then pure () else buttonLoop env rest
    else buttonLoop env rest

/-- Lines 102-160 of `twitter_post.py`: `if not await textbox.count()`
re-counts the locator finally assigned to `textbox` (one more lookup of its
selector), then type the content, Ctrl+Enter, check alerts, try the button
fallback chain, re-check the alerts, else screenshot and report. -/
def tweetFinish (content : String) (reply_to : Option String) (env : TwitterEnv)
    (tbSel : String) : M String := do
  emit (Ev.probe tbSel)
  if env.count tbSel = 0 then do
    emit (Ev.screenshot "/tmp/twitter_debug.png")
    pure tweetNoTextboxStr
  else do
    emitP "✍️  Typing content..."
    emit Ev.click
    emit (Ev.sleep 300)
    emit (Ev.fill content)
    emit (Ev.sleep 500)
    emitP "📤 Posting via Ctrl+Enter..."
    emit (Ev.press "Control+Enter")
    emitP "⏳ Waiting for confirmation..."
    emit (Ev.sleep 3000)
    let sent1 ← alertCheck env.alertSent1 env.replySent1
    if sent1 then do
      let action := if truthyOpt reply_to then "Reply" else "Tweet"
      emitP ("✅ " ++ (action ++ " posted successfully!"))
      pure ("✅ " ++ (action ++ " posted!"))
    else do
      emitP "🔄 Trying button click..."
      buttonLoop env buttonSelectors
      emit (Ev.sleep 2000)
      let sent2 ← alertCheck env.alertSent2 env.replySent2
      if sent2 then do
        let action := if truthyOpt reply_to then "Reply" else "Tweet"
        pure ("✅ " ++ (action ++ " posted!"))
      else do
        emit (Ev.screenshot "/tmp/twitter_debug.png")
        pure tweetUncertainStr

/-- The reply-mode textbox lookup (lines 85-89 of `twitter_post.py`):
`tweetSel1` is counted at line 86, `tweetSel2` at line 88; line 89 only
creates the `tweetSel3` locator (its first count is line 102's re-check). -/
def replyTbChain (env : TwitterEnv) : M String := do
  emit (Ev.probe tweetSel1)
  if env.count tweetSel1 = 0 then do
    emit (Ev.probe tweetSel2)
    if env.count tweetSel2 = 0 then pure tweetSel3
    else pure tweetSel2
  else pure tweetSel1

/-- The compose-mode textbox lookup (lines 98-100): `tweetSel1` is counted
at line 99; line 100 only creates the `tweetSel3` locator. -/
def composeTbChain (env : TwitterEnv) : M String := do
  emit (Ev.probe tweetSel1)
  if env.count tweetSel1 = 0 then pure tweetSel3
  else pure tweetSel1

/-- The body of the big `try` of `post_tweet` (lines 64-161): reply mode or
compose mode, textbox lookup with its selector fallbacks, then `tweetFinish`.
The reply button is counted at line 73 and the locator kept (possibly
replaced by the `replySel2` alternative, created without a count at line 75)
is counted again at line 77.  -/
def tweetBody (content : String) (reply_to : Option String) (env : TwitterEnv) :
    M String := do
  if truthyOpt reply_to then do
    let url := reply_to.getD ""
    emitP s!"↩️  Replying to: {url}"
    emit (Ev.goto url)
    liftE env.gotoReply
    emit (Ev.sleep 3000)
    emit (Ev.probe replySel1)
    let rbSel := if env.count replySel1 = 0 then replySel2 else replySel1
    emit (Ev.probe rbSel)
    if env.count rbSel ≠ 0 then do
      emitP "💬 Opening reply dialog..."
      emit Ev.click
      liftE env.clickReply
      emit (Ev.sleep 1500)
      let tbSel ← replyTbChain env
      tweetFinish content reply_to env tbSel
    else pure "❌ Could not find reply button"
  else do
    emitP "📝 Opening compose dialog..."
    emit (Ev.goto "https://twitter.com/compose/tweet")
    liftE env.gotoCompose
    emit (Ev.sleep 3000)
    let tbSel ← composeTbChain env
    tweetFinish content reply_to env tbSel

def connectFailStr (e : String) : String :=
  "❌ Failed to connect to browser: " ++
    (e ++ "\n💡 Make sure browser is running: clawdbot browser start --profile clawd")

def tweetErrStr (e : String) : String :=
  "❌ Error: " ++ (e ++ "\nScreenshot saved to /tmp/twitter_error.png")

/-- The catch-all `except` of `post_tweet` (lines 162-164): the screenshot
is itself an await that can raise inside the handler and escape. -/
def tweetHandler (env : TwitterEnv) (e : String) : M String := do
  emit (Ev.screenshot "/tmp/twitter_error.png")
  liftE env.handlerShot
  pure (tweetErrStr e)

/-- The `finally` block of `post_tweet` (line 166): `await page.close()`. -/
def closePageFin (env : TwitterEnv) : M Unit := do
  emit Ev.closePage
  liftE env.pageClose

/-- `post_tweet` of `twitter_post.py`.  `context.new_page()` (line 62) sits
between the connect `try` and the big `try`, so its failure escapes; the
`finally` block's `page.close()` (line 166) always runs and its failure
replaces the outcome. -/
def post_tweet (content : String) (reply_to : Option String) (dry_run : Bool)
    (env : TwitterEnv) : M String := do
  let _ ← (if 280 < content.length then
      emitP ("⚠️  Warning: Tweet is " ++
        (toString content.length ++ " chars (280 limit for free accounts)"))
    else pure ())
  if dry_run then do
    emitP ("📝 Preview:\n" ++ (content ++ "\n"))
    emitP ("📊 Length: " ++ (toString content.length ++ " chars"))
    let _ ← (if truthyOpt reply_to then
        emitP ("↩️  Reply to: " ++ reply_to.getD "")
      else pure ())
    pure "DRY_RUN"
  else do
    emit (Ev.connect CDP_URL)
    match env.connect with
    | Except.error e => pure (connectFailStr e)
    | Except.ok _ => do
      emitP "✅ Connected to Clawdbot browser"
      if env.contextsNonempty then do
        emit Ev.newPage
        liftE env.newPage
        tryFinallyM
          (tryCatchM (tweetBody content reply_to env) (tweetHandler env))
          (closePageFin env)
      else pure "❌ No browser context found"

/-! ## Zhihu script (`zhihu_post.py`) -/

def ZHIHU_WRITE_URL : String := "https://zhuanlan.zhihu.com/write"

def zhNoTitleInputStr : String :=
  "❌ Could not find title input. Screenshot saved to /tmp/zhihu_debug.png"

def zhNoPublishBtnStr : String :=
  "❌ Could not find publish button. Screenshot saved to /tmp/zhihu_debug.png"

def zhihuEditorSel : String := "textarea, [contenteditable=\"true\"]"

def zhihuTitleSelectors : List String :=
  ["textarea[placeholder*=\"标题\"]",
   "input[placeholder*=\"标题\"]",
   "textarea[placeholder*=\"100\"]",
   ".WriteIndex-titleInput textarea",
   ".PostEditor-titleInput textarea"]

/-- The remote browser as seen by `zhihu_post.py`.  `url1` is `page.url`
after opening the editor, `url2` after a confirmed publish, `url3` at the
uncertain-outcome check; `btnText i` is the inner text of the i-th button.
`newPage` is `context.new_page()` (line 65, outside any `try`),
`handlerShot` the screenshot inside the catch-all handler (line 195), and
`typeChunk i` the outcome of the body-typing loop's i-th
`page.keyboard.type(chunk)` await (line 120), which can fail mid-loop. -/
structure ZhihuEnv where
  connect : Except String Unit
  contextsNonempty : Bool
  newPage : Except String Unit
  goto1 : Except String Unit
  url1 : String
  waitEditor : Except String Unit
  count : String → Nat
  typeChunk : Nat → Except String Unit
  buttonCount : Nat
  btnText : Nat → String
  publishDisabled : Bool
  publishClick : Except String Unit
  waitSuccess : Except String Unit
  url2 : String
  goto2 : Except String Unit
  url3 : String
  handlerShot : Except String Unit

/-- Title-selector fallback loop (lines 91-95 of `zhihu_post.py`). -/
def findTitleSel (env : ZhihuEnv) : List String → M (Option String)
  | [] => pure none
  | sel :: rest => do
    emit (Ev.probe sel)
    if env.count sel ≠ 0 then pure (some sel)
    else findTitleSel env rest

/-- Publish-button search (lines 133-138): scan buttons `i`, `i+1`, ...
below `n` for the first whose stripped text is exactly "发布".  The first
argument is recursion fuel, one unit per loop iteration, so that the
definition reduces by iota; `findPublishIdx` supplies enough. -/
def findPublishFuel (env : ZhihuEnv) (n : Nat) : Nat → Nat → M (Option Nat)
  | 0, _ => pure none
  | fuel + 1, i =>
    if i < n then do
      emit (Ev.readBtn i)
      if pyStrip (env.btnText i) = "发布" then pure (some i)
      else findPublishFuel env n fuel (i + 1)
    else pure none

def findPublishIdx (env : ZhihuEnv) (n i : Nat) : M (Option Nat) :=
  findPublishFuel env n (n - i) i

/-- Python slice chunking `content[i:i+50]` for `i in range(0, len, 50)`
(lines 117-119 of `zhihu_post.py`); fuel as in `findPublishFuel`. -/
def chunkIdxFuel : Nat → List Char → Nat → List (List Char)
  | 0, _, _ => []
  | fuel + 1, s, i =>
    if i < s.length then (s.drop i).take 50 :: chunkIdxFuel fuel s (i + 50) else []

def chunkIdx (s : List Char) (i : Nat) : List (List Char) :=
  chunkIdxFuel (s.length + 1) s i

/-- The successive 50-character chunks the body-typing loop sends. -/
def zhihuChunks (content : String) : List String :=
  (chunkIdx content.data 0).map String.mk

/-- The body-typing loop (lines 118-121): type each chunk, pause 50ms.
Each `page.keyboard.type(chunk, delay=3)` is a fallible await (indexed by
its position `i` in the loop): when it raises, the loop stops there — a
prefix of the body's chunks has been sent — and the exception propagates
to the enclosing handler. -/
def typeChunks (env : ZhihuEnv) : Nat → List String → M Unit
  | _, [] => pure ()
  | i, c :: rest => do
    emit (Ev.typeKeys c)
    liftE (env.typeChunk i)
    emit (Ev.sleep 50)
    typeChunks env (i + 1) rest

/-- Python `title[:100]` (line 41). -/
def zhTruncTitle (title : String) : String := String.mk (title.data.take 100)

/-- The dry-run body excerpt (line 48):
`content[:500]` followed by `...` when longer than 500 characters. -/
def zhExcerpt (content : String) : String :=
  pyTake content 500 ++ (if 500 < content.length then "..." else "")

def zhUncertainStr (u : String) : String :=
  "⚠️  Uncertain if published. Current URL: " ++
    (u ++ "\nScreenshot saved to /tmp/zhihu_result.png")

def zhihuErrStr (e : String) : String :=
  "❌ Error: " ++ (e ++ "\nScreenshot saved to /tmp/zhihu_error.png")

/-- The catch-all `except` of `post_article` (lines 194-196): the screenshot
is itself an await that can raise inside the handler and escape. -/
def zhihuHandler (env : ZhihuEnv) (e : String) : M String := do
  emit (Ev.screenshot "/tmp/zhihu_error.png")
  liftE env.handlerShot
  pure (zhihuErrStr e)

/-- The inner publish-confirmation wait with its own `except` (lines 162-192). -/
def zhihuConfirm (env : ZhihuEnv) : M String :=
  tryCatchM
    (do
      emit (Ev.waitSelector "text=\"发布成功\"")
      liftE env.waitSuccess
      emitP "✅ Article published successfully!"
      emit (Ev.sleep 3000)
      let u := env.url2
      if pyIn "/p/" u then do
        let article_id := (pySplit ((pySplit u "/p/").getD 1 "") "/").getD 0 ""
        let article_url := "https://zhuanlan.zhihu.com/p/" ++ article_id
        emit (Ev.goto article_url)
        liftE env.goto2
        emit (Ev.sleep 2000)
        pure ("✅ Published! URL: " ++ article_url)
      else pure "✅ Article published successfully!")
    (fun _ => do
      emit (Ev.sleep 3000)
      let u := env.url3
      if pyIn "/p/" u && !(pyIn "/edit" u) then pure ("✅ Published! URL: " ++ u)
      else do
        emit (Ev.screenshot "/tmp/zhihu_result.png")
        pure (zhUncertainStr u))

/-- Lines 105-192 of `zhihu_post.py`, after the title input was found:
click it, type the title, Tab to the body, run the chunked typing loop,
then look for the publish button and publish. -/
def zhTitleFound (title content : String) (env : ZhihuEnv) : M String := do
  emit Ev.click
  emit (Ev.sleep 500)
  emit (Ev.typeKeys title)
  emit (Ev.sleep 1000)
  emitP "✍️  Entering content..."
  emit (Ev.press "Tab")
  emit (Ev.sleep 1000)
  typeChunks env 0 (zhihuChunks content)
  emit (Ev.sleep 2000)
  emitP "📤 Publishing..."
  emit (Ev.probe "button")
  let pubIdx ← findPublishIdx env env.buttonCount 0
  match pubIdx with
  | none => do
    emit (Ev.screenshot "/tmp/zhihu_debug.png")
    pure zhNoPublishBtnStr
  | some _ => do
    emit (Ev.sleep 1000)
    emit Ev.scroll
    emit (Ev.sleep 500)
    if env.publishDisabled then do
      emit (Ev.screenshot "/tmp/zhihu_debug.png")
      pure "❌ Publish button is disabled. Make sure title and content are entered. Screenshot saved."
    else do
      emit Ev.click
      liftE env.publishClick
      emitP "⏳ Waiting for confirmation..."
      zhihuConfirm env

/-- The body of the big `try` of `post_article` (lines 67-192).  When the
selector chain finds nothing, line 99 only creates the bare `textarea`
locator; line 101 `if not await title_input.count()` then counts the kept
locator — a second lookup of the selector the chain already counted when it
came from the chain. -/
def zhihuBody (title content : String) (env : ZhihuEnv) : M String := do
  emitP "📝 Opening Zhihu editor..."
  emit (Ev.goto ZHIHU_WRITE_URL)
  liftE env.goto1
  emit (Ev.sleep 5000)
  if pyIn "signin" env.url1 then
    pure "❌ Not logged in to Zhihu. Please login first in the Clawdbot browser."
  else do
    emit (Ev.waitSelector zhihuEditorSel)
    liftE env.waitEditor
    emitP "✍️  Entering title..."
    let found ← findTitleSel env zhihuTitleSelectors
    let titleSel := match found with
      | some s => s
      | none => "textarea"
    emit (Ev.probe titleSel)
    if env.count titleSel = 0 then do
      emit (Ev.screenshot "/tmp/zhihu_debug.png")
      pure zhNoTitleInputStr
    else zhTitleFound title content env

/-- `post_article` of `zhihu_post.py` after the title length check:
dry-run preview, else connect and run the editor flow.  `context.new_page()`
(line 65) sits between the connect `try` and the big `try`, so its failure
escapes; there is no `finally` (the page is deliberately left open). -/
def zhihuAfterTitle (title content : String) (dry_run : Bool)
    (env : ZhihuEnv) : M String := do
  if dry_run then do
    emitP "📝 Preview:"
    emitP ("📌 Title: " ++ title)
    emitP ("📊 Title length: " ++ (toString title.length ++ " chars"))
    emitP ("📊 Body length: " ++ (toString content.length ++ " chars"))
    emitP ("\n--- Content ---\n" ++ zhExcerpt content)
    pure "DRY_RUN"
  else do
    emit (Ev.connect CDP_URL)
    match env.connect with
    | Except.error e => pure (connectFailStr e)
    | Except.ok _ => do
      emitP "✅ Connected to Clawdbot browser"
      if env.contextsNonempty then do
        emit Ev.newPage
        liftE env.newPage
        tryCatchM (zhihuBody title content env) (zhihuHandler env)
      else pure "❌ No browser context found"

/-- `post_article` of `zhihu_post.py`. -/
def post_article (title content : String) (dry_run : Bool) (env : ZhihuEnv) :
    M String := do
  let title ← (if 100 < title.length then do
      emitP ("⚠️  Warning: Title is " ++
        (toString title.length ++ " chars (100 limit)"))
      pure (zhTruncTitle title)
    else pure title)
  zhihuAfterTitle title content dry_run env

/-! ## Command-line entry points (`main` of each script) -/

/-- What the process can see of standard input. -/
structure Stdin where
  isatty : Bool
  text : String

/-- Parsed CLI arguments of `twitter_post.py`. -/
structure TwitterArgs where
  content : Option String
  file : Option String
  reply : Option String
  dryRun : Bool

/-- Parsed CLI arguments of `zhihu_post.py`. -/
structure ZhihuArgs where
  title : Option String
  content : Option String
  titleOpt : Option String
  file : Option String
  dryRun : Bool

/-- Outcome of `main` of `twitter_post.py` up to the `post_tweet` call:
either an early exit (code, whether help was printed, message printed),
or the call `post_tweet content reply dryRun`. -/
inductive TwMain where
  | exit (code : Nat) (help : Bool) (msg : Option String)
  | post (content : String) (reply : Option String) (dryRun : Bool)
deriving DecidableEq

/-- Outcome of `main` of `zhihu_post.py` up to the `post_article` call. -/
inductive ZhMain where
  | exit (code : Nat) (help : Bool) (msg : Option String)
  | post (title content : String) (dryRun : Bool)
deriving DecidableEq

/-- Content loading of `twitter_post.py` (lines 179-190): file, else literal
argument, else piped stdin; `none` means help-and-exit. `fileText` maps a
path to the file's text. -/
def twResolveContent (args : TwitterArgs) (fileText : String → String)
    (stdin : Stdin) : Option String :=
  if truthyOpt args.file then some (pyStrip (fileText (args.file.getD "")))
  else if truthyOpt args.content then args.content
  else if !stdin.isatty then some (pyStrip stdin.text)
  else none

/-- `main` of `twitter_post.py` (lines 169-197) up to the posting call. -/
def twitterMain (args : TwitterArgs) (fileText : String → String)
    (stdin : Stdin) : TwMain :=
  match twResolveContent args fileText stdin with
  | none => TwMain.exit 1 true none
  | some content =>
    if content = "" then TwMain.exit 1 false (some "❌ No content provided")
    else TwMain.post content args.reply args.dryRun

/-- Content loading of `zhihu_post.py` (lines 218-234). -/
inductive ZhResolve where
  | exitHelp (msg : String)
  | got (content : String)
deriving DecidableEq

def zhResolveContent (args : ZhihuArgs) (fileText : String → String)
    (stdin : Stdin) : ZhResolve :=
  if truthyOpt args.file then ZhResolve.got (pyStrip (fileText (args.file.getD "")))
  else if truthyOpt args.content then ZhResolve.got (args.content.getD "")
  else if truthyOpt args.title && !(truthyOpt args.titleOpt) then
    if !stdin.isatty then ZhResolve.got (pyStrip stdin.text)
    else ZhResolve.exitHelp "❌ Content is required"
  else ZhResolve.exitHelp "❌ Content is required"

/-- `main` of `zhihu_post.py` (lines 200-241) up to the posting call:
`title = args.title_opt or args.title` with Python truthiness, then the
title-required check, then content loading, then the empty-content check. -/
def zhihuMain (args : ZhihuArgs) (fileText : String → String)
    (stdin : Stdin) : ZhMain :=
  let title := if truthyOpt args.titleOpt then args.titleOpt else args.title
  if !truthyOpt title then ZhMain.exit 1 true (some "❌ Title is required")
  else match zhResolveContent args fileText stdin with
  | ZhResolve.exitHelp m => ZhMain.exit 1 true (some m)
  | ZhResolve.got content =>
    if content = "" then ZhMain.exit 1 false (some "❌ No content provided")
    else ZhMain.post (title.getD "") content args.dryRun

/-! ## Definitions used by the claim statements -/

/-- Concatenation of a list of strings. -/
def strJoin : List String → String
  | [] => ""
  | s :: rest => s ++ strJoin rest

/-- All text injected into the page by a trace, in order
(`fill` and `keyboard.type` payloads). -/
def typedText (t : List Ev) : String :=
  strJoin (t.filterMap fun e => match e with
    | Ev.fill s => some s
    | Ev.typeKeys s => some s
    | _ => none)

/-- The selectors looked up by a trace, in order. -/
def probes (t : List Ev) : List String :=
  t.filterMap fun e => match e with
    | Ev.probe s => some s
    | _ => none

/-- Every probe sequence `tweetFinish` can produce, as a supersequence: the
re-count of the kept textbox selector, the first alert check, the button
loop, the second alert check. -/
def twFinishBound : List String :=
  [tweetSel1, tweetSel2, tweetSel3] ++
    ([alertSel, replyAlertSel] ++ (buttonSelectors ++ [alertSel, replyAlertSel]))

/-- Every probe sequence a `post_tweet` run can produce, as a supersequence:
the reply-button count, its re-count of the kept locator, the textbox
fallback chain, then `twFinishBound`.  Each selector occurs at most twice. -/
def twProbeBound : List String :=
  [replySel1] ++ ([replySel1, replySel2] ++
    ([tweetSel1, tweetSel2, tweetSel3] ++ twFinishBound))

/-- Every probe sequence a `post_article` run can produce, as a
supersequence: the title selector chain, the re-count of the kept title
locator, the button-list count.  Each selector occurs at most twice. -/
def zhProbeBound : List String :=
  zhihuTitleSelectors ++ ((zhihuTitleSelectors ++ ["textarea"]) ++ ["button"])

/-- An event that is neither a console print nor a pure pause: any network
or UI action. -/
def isNetUI : Ev → Bool
  | Ev.printLn _ => false
  | _ => true

/-- Content loading as the claim words it: a (non-empty) file path wins,
else a non-empty literal argument, else piped standard input where the
script consults it, else nothing. -/
def claimResolve (fileGiven : Bool) (fileVal : String) (litGiven : Bool)
    (litVal : String) (stdinPiped : Bool) (stdinVal : String)
    (stdinAllowed : Bool) : Option String :=
  if fileGiven then some (pyStrip fileVal)
  else if litGiven then some litVal
  else if stdinAllowed && stdinPiped then some (pyStrip stdinVal)
  else none

/-! Concrete environments and inputs used as witnesses and counterexamples. -/

/-- A browser in which every lookup finds one match and every await succeeds. -/
def twEnvOk : TwitterEnv :=
  { connect := Except.ok ()
    contextsNonempty := true
    newPage := Except.ok ()
    gotoReply := Except.ok ()
    gotoCompose := Except.ok ()
    count := fun _ => 1
    clickReply := Except.ok ()
    alertSent1 := 1
    replySent1 := 0
    alertSent2 := 1
    replySent2 := 0
    btnAttr := fun _ => Except.ok none
    btnClick := fun _ => Except.ok ()
    handlerShot := Except.ok ()
    pageClose := Except.ok () }

/-- A browser in which no locator ever matches: the compose-mode textbox
lookup fails and the run ends with the missing-textbox outcome. -/
def twEnvNoTextbox : TwitterEnv :=
  { connect := Except.ok ()
    contextsNonempty := true
    newPage := Except.ok ()
    gotoReply := Except.ok ()
    gotoCompose := Except.ok ()
    count := fun _ => 0
    clickReply := Except.ok ()
    alertSent1 := 0
    replySent1 := 0
    alertSent2 := 0
    replySent2 := 0
    btnAttr := fun _ => Except.ok none
    btnClick := fun _ => Except.ok ()
    handlerShot := Except.ok ()
    pageClose := Except.ok () }

/-- A browser in which `context.new_page()` raises: the exception escapes
`post_tweet` because line 62 is outside both `try` blocks. -/
def twEnvNewPageFail : TwitterEnv :=
  { twEnvOk with newPage := Except.error "Target closed" }

/-- A browser in which everything succeeds except the `finally` block's
`page.close()`: the run posts the tweet, then raises out of `post_tweet`. -/
def twEnvCloseFail : TwitterEnv :=
  { twEnvOk with pageClose := Except.error "Connection closed" }

/-- A Zhihu editor in which title entry succeeds (first selector matches)
but no publish button exists, so the run types everything then fails. -/
def zhEnvTyping : ZhihuEnv :=
  { connect := Except.ok ()
    contextsNonempty := true
    newPage := Except.ok ()
    goto1 := Except.ok ()
    url1 := "https://zhuanlan.zhihu.com/write"
    waitEditor := Except.ok ()
    count := fun _ => 1
    typeChunk := fun _ => Except.ok ()
    buttonCount := 0
    btnText := fun _ => ""
    publishDisabled := false
    publishClick := Except.ok ()
    waitSuccess := Except.ok ()
    url2 := ""
    goto2 := Except.ok ()
    url3 := ""
    handlerShot := Except.ok () }

/-- A Zhihu browser in which navigation raises and the handler's screenshot
raises too: the screenshot's exception escapes `post_article`. -/
def zhEnvShotFail : ZhihuEnv :=
  { zhEnvTyping with
    goto1 := Except.error "net::ERR_CONNECTION_RESET"
    handlerShot := Except.error "Target closed" }

/-- A 101-character title. -/
def longTitle : String := String.mk (List.replicate 101 'a')

/-- A file-reading oracle whose every file holds only whitespace. -/
def ftBlank : String → String := fun _ => "  \n "

/-- A file-reading oracle whose every file is empty. -/
def ftEmpty : String → String := fun _ => ""

/-! ## Monad computation lemmas -/

@[simp] theorem ok_bind (a : α) (t : List Ev) (k : α → M β) :
    ((⟨Except.ok a, t⟩ : M α) >>= k) = ⟨(k a).res, t ++ (k a).trace⟩ := rfl

@[simp] theorem err_bind (e : String) (t : List Ev) (k : α → M β) :
    ((⟨Except.error e, t⟩ : M α) >>= k) = ⟨Except.error e, t⟩ := rfl

@[simp] theorem pure_M (a : α) : (pure a : M α) = ⟨Except.ok a, []⟩ := rfl

@[simp] theorem emit_def (e : Ev) : emit e = ⟨Except.ok (), [e]⟩ := rfl

@[simp] theorem emitP_def (s : String) : emitP s = ⟨Except.ok (), [Ev.printLn s]⟩ := rfl

@[simp] theorem liftE_def (x : Except String α) : liftE x = ⟨x, []⟩ := rfl

@[simp] theorem tryCatchM_ok (a : α) (t : List Ev) (h : String → M α) :
    tryCatchM ⟨Except.ok a, t⟩ h = ⟨Except.ok a, t⟩ := rfl

@[simp] theorem tryCatchM_err (e : String) (t : List Ev) (h : String → M α) :
    tryCatchM ⟨Except.error e, t⟩ h = ⟨(h e).res, t ++ (h e).trace⟩ := rfl

@[simp] theorem tryFinallyM_lit_ok (m : M α) (t : List Ev) :
    tryFinallyM m ⟨Except.ok (), t⟩ = ⟨m.res, m.trace ++ t⟩ := rfl

@[simp] theorem tryFinallyM_lit_err (m : M α) (e : String) (t : List Ev) :
    tryFinallyM m ⟨Except.error e, t⟩ = ⟨Except.error e, m.trace ++ t⟩ := rfl

theorem tryFinallyM_fin_ok {fin : M Unit} (h : fin.res = Except.ok ())
    (m : M α) : tryFinallyM m fin = ⟨m.res, m.trace ++ fin.trace⟩ := by
  unfold tryFinallyM
  rw [h]

theorem tryFinallyM_fin_err {fin : M Unit} {e : String}
    (h : fin.res = Except.error e) (m : M α) :
    tryFinallyM m fin = ⟨Except.error e, m.trace ++ fin.trace⟩ := by
  unfold tryFinallyM
  rw [h]

theorem alertCheck_pos {a : Nat} (h : a ≠ 0) (r : Nat) :
    alertCheck a r = ⟨Except.ok true, [Ev.probe alertSel]⟩ := by
  simp [alertCheck, h]

theorem alertCheck_zero (r : Nat) :
    alertCheck 0 r = ⟨Except.ok (decide (r ≠ 0)),
      [Ev.probe alertSel, Ev.probe replyAlertSel]⟩ := by
  simp [alertCheck]

theorem alertCheck_bind_pos {a : Nat} (h : a ≠ 0) (r : Nat) (k : Bool → M α) :
    (alertCheck a r >>= k) =
      ⟨(k true).res, [Ev.probe alertSel] ++ (k true).trace⟩ := by
  rw [alertCheck_pos h]
  rfl

theorem alertCheck_bind_zero_pos {r : Nat} (h : r ≠ 0) (k : Bool → M α) :
    (alertCheck 0 r >>= k) = ⟨(k true).res,
      [Ev.probe alertSel, Ev.probe replyAlertSel] ++ (k true).trace⟩ := by
  rw [alertCheck_zero]
  simp [h]

theorem alertCheck_bind_zero_zero (k : Bool → M α) :
    (alertCheck 0 0 >>= k) = ⟨(k false).res,
      [Ev.probe alertSel, Ev.probe replyAlertSel] ++ (k false).trace⟩ := by
  rw [alertCheck_zero]
  simp

/-- Generic bind, stated with projections so it applies to any head term. -/
theorem bind_eq (m : M α) (k : α → M β) :
    (m >>= k) = match m.res with
      | Except.error e => ⟨Except.error e, m.trace⟩
      | Except.ok a => ⟨(k a).res, m.trace ++ (k a).trace⟩ := rfl

/-- A computation that cannot end in an uncaught exception. -/
def ResOk (m : M α) : Prop := ∃ a, m.res = Except.ok a

theorem resOk_pure (a : α) : ResOk (pure (f := M) a) := ⟨a, rfl⟩

theorem resOk_emit (e : Ev) : ResOk (emit e) := ⟨(), rfl⟩

theorem resOk_bind {m : M α} {k : α → M β} (h1 : ResOk m)
    (h2 : ∀ a, ResOk (k a)) : ResOk (m >>= k) := by
  obtain ⟨a, ha⟩ := h1
  obtain ⟨b, hb⟩ := h2 a
  exact ⟨b, by simp [bind_eq, ha, hb]⟩

theorem resOk_tryCatchM {body : M α} {h : String → M α}
    (hh : ∀ e, ResOk (h e)) : ResOk (tryCatchM body h) := by
  unfold tryCatchM
  cases hb : body.res with
  | ok a => exact ⟨a, by simp [hb]⟩
  | error e =>
    obtain ⟨a, ha⟩ := hh e
    exact ⟨a, by simp [hb, ha]⟩

theorem resOk_ite {c : Prop} [Decidable c] {m1 m2 : M α}
    (h1 : ResOk m1) (h2 : ResOk m2) : ResOk (if c then m1 else m2) := by
  split <;> assumption

theorem resOk_tryFinallyM {m : M α} {fin : M Unit} (hm : ResOk m)
    (hf : fin.res = Except.ok ()) : ResOk (tryFinallyM m fin) := by
  obtain ⟨a, ha⟩ := hm
  exact ⟨a, by simp [tryFinallyM_fin_ok hf, ha]⟩

theorem resOk_liftE {x : Except String α} (a : α) (h : x = Except.ok a) :
    ResOk (liftE x) := ⟨a, h⟩

theorem resOk_post_tweet (c : String) (r : Option String) (d : Bool)
    (env : TwitterEnv) (hn : env.newPage = Except.ok ())
    (hs : env.handlerShot = Except.ok ())
    (hcl : env.pageClose = Except.ok ()) : ResOk (post_tweet c r d env) := by
  unfold post_tweet
  refine resOk_bind ?_ fun _ => ?_
  · split
    · exact resOk_emit _
    · exact resOk_pure _
  split
  · refine resOk_bind (resOk_emit _) fun _ => ?_
    refine resOk_bind (resOk_emit _) fun _ => ?_
    refine resOk_bind ?_ fun _ => resOk_pure _
    split
    · exact resOk_emit _
    · exact resOk_pure _
  · refine resOk_bind (resOk_emit _) fun _ => ?_
    cases env.connect with
    | error e => exact resOk_pure _
    | ok u =>
      refine resOk_bind (resOk_emit _) fun _ => ?_
      split
      · refine resOk_bind (resOk_emit _) fun _ => ?_
        refine resOk_bind (resOk_liftE () hn) fun _ => ?_
        refine resOk_tryFinallyM ?_ ?_
        · exact resOk_tryCatchM fun e =>
            resOk_bind (resOk_emit _) fun _ =>
              resOk_bind (resOk_liftE () hs) fun _ => resOk_pure _
        · simp [closePageFin, hcl]
      · exact resOk_pure _

theorem resOk_post_article (t c : String) (d : Bool) (env : ZhihuEnv)
    (zn : env.newPage = Except.ok ())
    (zs : env.handlerShot = Except.ok ()) : ResOk (post_article t c d env) := by
  unfold post_article
  refine resOk_bind ?_ fun title => ?_
  · split
    · exact resOk_bind (resOk_emit _) fun _ => resOk_pure _
    · exact resOk_pure _
  unfold zhihuAfterTitle
  split
  · refine resOk_bind (resOk_emit _) fun _ => ?_
    refine resOk_bind (resOk_emit _) fun _ => ?_
    refine resOk_bind (resOk_emit _) fun _ => ?_
    refine resOk_bind (resOk_emit _) fun _ => ?_
    refine resOk_bind (resOk_emit _) fun _ => ?_
    exact resOk_pure _
  · refine resOk_bind (resOk_emit _) fun _ => ?_
    cases env.connect with
    | error e => exact resOk_pure _
    | ok u =>
      refine resOk_bind (resOk_emit _) fun _ => ?_
      split
      · refine resOk_bind (resOk_emit _) fun _ => ?_
        refine resOk_bind (resOk_liftE () zn) fun _ => ?_
        exact resOk_tryCatchM fun e =>
          resOk_bind (resOk_emit _) fun _ =>
            resOk_bind (resOk_liftE () zs) fun _ => resOk_pure _
      · exact resOk_pure _

/-- C1 counterexample: the posting operations can let an exception escape.
With everything else healthy, a failing `context.new_page()` (line 62 of
`twitter_post.py`, outside both `try` blocks) raises out of `post_tweet`;
a failing `page.close()` in the `finally` block (line 166) raises out of
`post_tweet` even though the tweet was posted; and when the editor flow
fails and the catch-all handler's own `page.screenshot` (line 195 of
`zhihu_post.py`) fails too, that exception raises out of `post_article`. -/
theorem post_ops_raise_counterexample :
    (post_tweet "hi" none false twEnvNewPageFail).res =
      Except.error "Target closed" ∧
    (post_tweet "hi" none false twEnvCloseFail).res =
      Except.error "Connection closed" ∧
    (post_article "T" "B" false zhEnvShotFail).res =
      Except.error "Target closed" := by
  refine ⟨?_, ?_, ?_⟩ <;> decide

/-- C1 (amended): failures arising inside the protected regions (the
connection attempt and the whole editor/posting flow of the big `try`) are
caught locally and reported as status strings; the only awaits whose
exceptions escape are the unprotected ones — `context.new_page()` between
the two `try` blocks, the catch-all handler's own screenshot, and the
Twitter script's `finally` `page.close()`.  Whenever those succeed,
`post_tweet` and `post_article` return a status string on every failure
path and never raise. -/
theorem post_ops_raise_only_outside_guards (content : String)
    (reply_to : Option String) (dry_run : Bool) (env : TwitterEnv)
    (title zcontent : String) (zdry : Bool) (zenv : ZhihuEnv)
    (hn : env.newPage = Except.ok ()) (hs : env.handlerShot = Except.ok ())
    (hcl : env.pageClose = Except.ok ())
    (zn : zenv.newPage = Except.ok ())
    (zs : zenv.handlerShot = Except.ok ()) :
    (∃ s, (post_tweet content reply_to dry_run env).res = Except.ok s) ∧
    (∃ s, (post_article title zcontent zdry zenv).res = Except.ok s) :=
  ⟨resOk_post_tweet content reply_to dry_run env hn hs hcl,
   resOk_post_article title zcontent zdry zenv zn zs⟩

/-- C1 witness: with a healthy browser both operations end in a returned
status string. -/
theorem post_ops_raise_only_outside_guards_witness :
    (∃ s, (post_tweet "hi" none false twEnvOk).res = Except.ok s) ∧
    (∃ s, (post_article "T" "B" false zhEnvTyping).res = Except.ok s) :=
  post_ops_raise_only_outside_guards "hi" none false twEnvOk "T" "B" false
    zhEnvTyping rfl rfl rfl rfl rfl

/-! ## String and list helpers -/

theorem strData_append (a b : String) : (a ++ b).data = a.data ++ b.data := by
  cases a
  cases b
  rfl

theorem strMk_append (a b : List Char) :
    (String.mk a ++ String.mk b) = String.mk (a ++ b) := rfl

theorem strExt {a b : String} (h : a.data = b.data) : a = b := by
  cases a
  cases b
  exact congrArg String.mk h

theorem strJoin_append (l1 l2 : List String) :
    strJoin (l1 ++ l2) = strJoin l1 ++ strJoin l2 := by
  induction l1 with
  | nil => simp [strJoin]
  | cons a rest ih =>
    refine strExt ?_
    simp [strJoin, strData_append, ih]

theorem typedText_append (t1 t2 : List Ev) :
    typedText (t1 ++ t2) = typedText t1 ++ typedText t2 := by
  unfold typedText
  rw [List.filterMap_append, strJoin_append]

theorem probes_append (t1 t2 : List Ev) :
    probes (t1 ++ t2) = probes t1 ++ probes t2 := by
  unfold probes
  rw [List.filterMap_append]

/-- If a string differs from `t` inside its fixed prefix `p`, appending
anything to `p` cannot produce `t`. -/
theorem append_ne_of_head (p a t : String) (i : Nat) (h1 : i < p.data.length)
    (hne : p.data[i]? ≠ t.data[i]?) : p ++ a ≠ t := by
  intro h
  apply hne
  have hd : (p ++ a).data = t.data := congrArg String.data h
  rw [strData_append] at hd
  rw [← hd]
  exact (List.getElem?_append_left h1).symm

/-- Two strings with fixed prefixes that disagree at a common position are
distinct whatever is appended to them. -/
theorem append_ne_append (p a q b : String) (i : Nat) (h1 : i < p.data.length)
    (h2 : i < q.data.length) (hne : p.data[i]? ≠ q.data[i]?) :
    p ++ a ≠ q ++ b := by
  intro h
  apply hne
  have hd : (p ++ a).data = (q ++ b).data := congrArg String.data h
  rw [strData_append, strData_append] at hd
  rw [← List.getElem?_append_left h1, ← List.getElem?_append_left h2, hd]

theorem listContains_append_right (n l1 l2 : List Char)
    (h : listContains n l2 = true) : listContains n (l1 ++ l2) = true := by
  induction l1 with
  | nil => simpa using h
  | cons c rest ih => simp [listContains, ih]

theorem pyIn_append_right (needle a b : String) (h : pyIn needle b = true) :
    pyIn needle (a ++ b) = true := by
  unfold pyIn at *
  rw [strData_append]
  exact listContains_append_right _ _ _ h

/-! ## Chunking lemmas (Zhihu body-typing loop) -/

theorem chunkIdxFuel_flatten (fuel : Nat) :
    ∀ (s : List Char) (i : Nat), s.length ≤ i + 50 * fuel →
      (chunkIdxFuel fuel s i).flatten = s.drop i := by
  induction fuel with
  | zero =>
    intro s i h
    have hd : s.drop i = [] := List.drop_eq_nil_of_le (by omega)
    simp [chunkIdxFuel, hd]
  | succ n ih =>
    intro s i h
    rw [chunkIdxFuel]
    split
    · rename_i hi
      rw [List.flatten_cons, ih s (i + 50) (by omega)]
      rw [← List.drop_drop]
      exact List.take_append_drop 50 (s.drop i)
    · rename_i hi
      have hd : s.drop i = [] := List.drop_eq_nil_of_le (by omega)
      simp [hd]

theorem chunkIdxFuel_mem (fuel : Nat) :
    ∀ (s : List Char) (i : Nat) (c : List Char), c ∈ chunkIdxFuel fuel s i →
      c.length ≤ 50 ∧ c ≠ [] := by
  induction fuel with
  | zero => intro s i c h; simp [chunkIdxFuel] at h
  | succ n ih =>
    intro s i c h
    rw [chunkIdxFuel] at h
    split at h
    · rename_i hi
      rcases List.mem_cons.mp h with hc | hc
      · subst hc
        constructor
        · simp [List.length_take]
        · have hl : ((s.drop i).take 50).length = min 50 (s.length - i) := by
            simp [List.length_take]
          intro hnil
          rw [hnil] at hl
          simp at hl
          omega
      · exact ih s (i + 50) c hc
    · simp at h

theorem chunkIdxFuel_ne_nil (fuel : Nat) (s : List Char) (i : Nat)
    (h : chunkIdxFuel fuel s i ≠ []) : i < s.length := by
  cases fuel with
  | zero => simp [chunkIdxFuel] at h
  | succ n =>
    rw [chunkIdxFuel] at h
    by_cases hi : i < s.length
    · exact hi
    · simp [hi] at h

theorem chunkIdxFuel_dropLast (fuel : Nat) :
    ∀ (s : List Char) (i : Nat) (c : List Char),
      c ∈ (chunkIdxFuel fuel s i).dropLast → c.length = 50 := by
  induction fuel with
  | zero => intro s i c h; simp [chunkIdxFuel] at h
  | succ n ih =>
    intro s i c h
    rw [chunkIdxFuel] at h
    split at h
    · rename_i hi
      by_cases hr : chunkIdxFuel n s (i + 50) = []
      · rw [hr] at h
        simp at h
      · rw [List.dropLast_cons_of_ne_nil hr] at h
        rcases List.mem_cons.mp h with hc | hc
        · subst hc
          have hlt : i + 50 < s.length := chunkIdxFuel_ne_nil n s (i + 50) hr
          simp [List.length_take]
          omega
        · exact ih s (i + 50) c hc
    · simp at h

theorem strJoin_map_mk (L : List (List Char)) :
    strJoin (L.map String.mk) = String.mk L.flatten := by
  induction L with
  | nil => rfl
  | cons a rest ih => simp [strJoin, ih, strMk_append]

theorem zhihuChunks_join (content : String) :
    strJoin (zhihuChunks content) = content := by
  unfold zhihuChunks chunkIdx
  rw [strJoin_map_mk,
    chunkIdxFuel_flatten (content.data.length + 1) content.data 0 (by omega)]
  rfl

/-! ## Trace lemmas for the Twitter publish-button loop -/

theorem buttonLoop_mem (env : TwitterEnv) (sels : List String) :
    ∀ e ∈ (buttonLoop env sels).trace,
      (∃ s, s ∈ sels ∧ e = Ev.probe s) ∨ e = Ev.click ∨
        (∃ s, e = Ev.printLn s) ∨ (∃ n, e = Ev.sleep n) := by
  induction sels with
  | nil => intro e he; simp [buttonLoop] at he
  | cons sel rest ih =>
    have weaken : ∀ e, ((∃ s, s ∈ rest ∧ e = Ev.probe s) ∨ e = Ev.click ∨
        (∃ s, e = Ev.printLn s) ∨ (∃ n, e = Ev.sleep n)) →
        ((∃ s, s ∈ sel :: rest ∧ e = Ev.probe s) ∨ e = Ev.click ∨
          (∃ s, e = Ev.printLn s) ∨ (∃ n, e = Ev.sleep n)) := by
      intro e h
      rcases h with ⟨s, hs, rfl⟩ | h
      · exact Or.inl ⟨s, List.mem_cons_of_mem _ hs, rfl⟩
      · exact Or.inr h
    intro e he
    simp only [buttonLoop] at he
    by_cases hc : env.count sel = 0
    · simp only [hc, ok_bind, emit_def] at he
      simp [hc] at he
      rcases he with rfl | he
      · exact Or.inl ⟨sel, List.mem_cons_self _ _, rfl⟩
      · exact weaken e (ih e he)
    · rcases hA : env.btnAttr sel with eA | attr
      · simp only [hc, hA, ok_bind, err_bind, emit_def, emitP_def,
          liftE_def, tryCatchM_err, pure_M] at he
        simp [hc] at he
        rcases he with rfl | rfl | he
        · exact Or.inl ⟨sel, List.mem_cons_self _ _, rfl⟩
        · exact Or.inr (Or.inr (Or.inl ⟨_, rfl⟩))
        · exact weaken e (ih e he)
      · by_cases ht : truthyAttr attr
        · simp only [hc, hA, ht, ok_bind, err_bind, emit_def, emitP_def,
            liftE_def, tryCatchM_ok, pure_M] at he
          simp [hc] at he
          rcases he with rfl | he
          · exact Or.inl ⟨sel, List.mem_cons_self _ _, rfl⟩
          · exact weaken e (ih e he)
        · rcases hC : env.btnClick sel with eC | u
          · simp only [hc, hA, ht, hC, ok_bind, err_bind, emit_def,
              emitP_def, liftE_def, tryCatchM_err, tryCatchM_ok, pure_M] at he
            simp [hc] at he
            rcases he with rfl | rfl | rfl | he
            · exact Or.inl ⟨sel, List.mem_cons_self _ _, rfl⟩
            · exact Or.inr (Or.inl rfl)
            · exact Or.inr (Or.inr (Or.inl ⟨_, rfl⟩))
            · exact weaken e (ih e he)
          · simp only [hc, hA, ht, hC, ok_bind, err_bind, emit_def,
              emitP_def, liftE_def, tryCatchM_err, tryCatchM_ok, pure_M] at he
            simp [hc] at he
            rcases he with rfl | rfl | rfl | rfl
            · exact Or.inl ⟨sel, List.mem_cons_self _ _, rfl⟩
            · exact Or.inr (Or.inl rfl)
            · exact Or.inr (Or.inr (Or.inl ⟨_, rfl⟩))
            · exact Or.inr (Or.inr (Or.inr ⟨_, rfl⟩))

theorem bind_of_res_ok {m : M α} {k : α → M β} {a : α}
    (h : m.res = Except.ok a) :
    (m >>= k) = ⟨(k a).res, m.trace ++ (k a).trace⟩ := by
  rw [bind_eq, h]

theorem bind_of_res_err {m : M α} {k : α → M β} {e : String}
    (h : m.res = Except.error e) :
    (m >>= k) = ⟨Except.error e, m.trace⟩ := by
  rw [bind_eq, h]

theorem buttonLoop_res (env : TwitterEnv) (sels : List String) :
    (buttonLoop env sels).res = Except.ok () := by
  induction sels with
  | nil => rfl
  | cons sel rest ih =>
    simp only [buttonLoop]
    by_cases hc : env.count sel = 0
    · simp [hc, ih]
    · rcases hA : env.btnAttr sel with eA | attr
      · simp [hc, hA, ih]
      · by_cases ht : truthyAttr attr
        · simp [hc, hA, ht, ih]
        · rcases hC : env.btnClick sel with eC | u
          · simp [hc, hA, ht, hC, ih]
          · simp [hc, hA, ht, hC]

theorem probes_eq_nil {t : List Ev} (h : ∀ e ∈ t, ∀ s, e ≠ Ev.probe s) :
    probes t = [] := by
  induction t with
  | nil => rfl
  | cons e rest ih =>
    have he := h e (List.mem_cons_self _ _)
    have hr : ∀ e ∈ rest, ∀ s, e ≠ Ev.probe s :=
      fun x hx => h x (List.mem_cons_of_mem _ hx)
    unfold probes at ih ⊢
    rw [List.filterMap_cons]
    cases e <;> simp_all [probes]

theorem typedText_eq_empty {t : List Ev}
    (h : ∀ e ∈ t, (∀ s, e ≠ Ev.fill s) ∧ (∀ s, e ≠ Ev.typeKeys s)) :
    typedText t = "" := by
  induction t with
  | nil => rfl
  | cons e rest ih =>
    have he := h e (List.mem_cons_self _ _)
    have hr := fun x hx => h x (List.mem_cons_of_mem _ hx)
    unfold typedText at ih ⊢
    rw [List.filterMap_cons]
    cases e <;> simp_all [strJoin, typedText]

theorem buttonLoop_probes (env : TwitterEnv) (sels : List String) :
    List.Sublist (probes (buttonLoop env sels).trace) sels := by
  induction sels with
  | nil => simp [buttonLoop, probes]
  | cons sel rest ih =>
    simp only [buttonLoop]
    by_cases hc : env.count sel = 0
    · simp only [hc, ok_bind, emit_def]
      simp [probes, List.filterMap_cons]
      exact ih
    · rcases hA : env.btnAttr sel with eA | attr
      · simp only [hc, hA, ok_bind, err_bind, emit_def, emitP_def, liftE_def,
          tryCatchM_err, pure_M]
        simp [hc, probes, List.filterMap_cons]
        exact ih
      · by_cases ht : truthyAttr attr
        · simp only [hc, hA, ht, ok_bind, err_bind, emit_def, emitP_def,
            liftE_def, tryCatchM_ok, pure_M]
          simp [hc, ht, probes, List.filterMap_cons]
          exact ih
        · rcases hC : env.btnClick sel with eC | u
          · simp only [hc, hA, ht, hC, ok_bind, err_bind, emit_def, emitP_def,
              liftE_def, tryCatchM_err, tryCatchM_ok, pure_M]
            simp [hc, probes, List.filterMap_cons]
            exact ih
          · simp only [hc, hA, ht, hC, ok_bind, err_bind, emit_def, emitP_def,
              liftE_def, tryCatchM_err, tryCatchM_ok, pure_M]
            simp [hc, probes, List.filterMap_cons]

theorem buttonLoop_no_connect (env : TwitterEnv) (sels : List String)
    (u : String) : Ev.connect u ∉ (buttonLoop env sels).trace := by
  intro hm
  rcases buttonLoop_mem env sels _ hm with ⟨s, _, h⟩ | h | ⟨s, h⟩ | ⟨n, h⟩ <;>
    simp at h

theorem buttonLoop_typed (env : TwitterEnv) (sels : List String) :
    typedText (buttonLoop env sels).trace = "" := by
  apply typedText_eq_empty
  intro e he
  rcases buttonLoop_mem env sels e he with ⟨s, _, rfl⟩ | rfl | ⟨s, rfl⟩ | ⟨n, rfl⟩ <;>
    simp

theorem strAppend_empty (s : String) : s ++ "" = s := by
  refine strExt ?_
  rw [strData_append]
  simp [String.data]

theorem strEmpty_append (s : String) : "" ++ s = s := by
  refine strExt ?_
  rw [strData_append]
  simp [String.data]

/-! ## Evaluation lemmas for trace extractors -/

attribute [simp] probes_append typedText_append

@[simp] theorem probes_nil : probes [] = [] := rfl
@[simp] theorem probes_cons_probe (s : String) (t : List Ev) :
    probes (Ev.probe s :: t) = s :: probes t := rfl
@[simp] theorem probes_cons_printLn (s : String) (t : List Ev) :
    probes (Ev.printLn s :: t) = probes t := rfl
@[simp] theorem probes_cons_connect (s : String) (t : List Ev) :
    probes (Ev.connect s :: t) = probes t := rfl
@[simp] theorem probes_cons_newPage (t : List Ev) :
    probes (Ev.newPage :: t) = probes t := rfl
@[simp] theorem probes_cons_goto (s : String) (t : List Ev) :
    probes (Ev.goto s :: t) = probes t := rfl
@[simp] theorem probes_cons_waitSelector (s : String) (t : List Ev) :
    probes (Ev.waitSelector s :: t) = probes t := rfl
@[simp] theorem probes_cons_readBtn (i : Nat) (t : List Ev) :
    probes (Ev.readBtn i :: t) = probes t := rfl
@[simp] theorem probes_cons_click (t : List Ev) :
    probes (Ev.click :: t) = probes t := rfl
@[simp] theorem probes_cons_fill (s : String) (t : List Ev) :
    probes (Ev.fill s :: t) = probes t := rfl
@[simp] theorem probes_cons_typeKeys (s : String) (t : List Ev) :
    probes (Ev.typeKeys s :: t) = probes t := rfl
@[simp] theorem probes_cons_press (s : String) (t : List Ev) :
    probes (Ev.press s :: t) = probes t := rfl
@[simp] theorem probes_cons_sleep (n : Nat) (t : List Ev) :
    probes (Ev.sleep n :: t) = probes t := rfl
@[simp] theorem probes_cons_scroll (t : List Ev) :
    probes (Ev.scroll :: t) = probes t := rfl
@[simp] theorem probes_cons_screenshot (s : String) (t : List Ev) :
    probes (Ev.screenshot s :: t) = probes t := rfl
@[simp] theorem probes_cons_closePage (t : List Ev) :
    probes (Ev.closePage :: t) = probes t := rfl

@[simp] theorem typedText_nil : typedText [] = "" := rfl
@[simp] theorem typedText_cons_fill (s : String) (t : List Ev) :
    typedText (Ev.fill s :: t) = s ++ typedText t := rfl
@[simp] theorem typedText_cons_typeKeys (s : String) (t : List Ev) :
    typedText (Ev.typeKeys s :: t) = s ++ typedText t := rfl
@[simp] theorem typedText_cons_printLn (s : String) (t : List Ev) :
    typedText (Ev.printLn s :: t) = typedText t := rfl
@[simp] theorem typedText_cons_probe (s : String) (t : List Ev) :
    typedText (Ev.probe s :: t) = typedText t := rfl
@[simp] theorem typedText_cons_connect (s : String) (t : List Ev) :
    typedText (Ev.connect s :: t) = typedText t := rfl
@[simp] theorem typedText_cons_newPage (t : List Ev) :
    typedText (Ev.newPage :: t) = typedText t := rfl
@[simp] theorem typedText_cons_goto (s : String) (t : List Ev) :
    typedText (Ev.goto s :: t) = typedText t := rfl
@[simp] theorem typedText_cons_waitSelector (s : String) (t : List Ev) :
    typedText (Ev.waitSelector s :: t) = typedText t := rfl
@[simp] theorem typedText_cons_readBtn (i : Nat) (t : List Ev) :
    typedText (Ev.readBtn i :: t) = typedText t := rfl
@[simp] theorem typedText_cons_click (t : List Ev) :
    typedText (Ev.click :: t) = typedText t := rfl
@[simp] theorem typedText_cons_press (s : String) (t : List Ev) :
    typedText (Ev.press s :: t) = typedText t := rfl
@[simp] theorem typedText_cons_sleep (n : Nat) (t : List Ev) :
    typedText (Ev.sleep n :: t) = typedText t := rfl
@[simp] theorem typedText_cons_scroll (t : List Ev) :
    typedText (Ev.scroll :: t) = typedText t := rfl
@[simp] theorem typedText_cons_screenshot (s : String) (t : List Ev) :
    typedText (Ev.screenshot s :: t) = typedText t := rfl
@[simp] theorem typedText_cons_closePage (t : List Ev) :
    typedText (Ev.closePage :: t) = typedText t := rfl

@[simp] theorem strAppend_empty_simp (s : String) : s ++ "" = s :=
  strAppend_empty s
@[simp] theorem strEmpty_append_simp (s : String) : "" ++ s = s :=
  strEmpty_append s

theorem typeChunks_facts (env : ZhihuEnv) : ∀ (l : List String) (i : Nat),
    (∀ e ∈ (typeChunks env i l).trace,
      (∃ s, e = Ev.typeKeys s) ∨ ∃ m, e = Ev.sleep m) ∧
    (∃ k, typedText (typeChunks env i l).trace = strJoin (l.take k)) ∧
    ((typeChunks env i l).res = Except.ok () →
      typedText (typeChunks env i l).trace = strJoin l) ∧
    ((∀ j, env.typeChunk j = Except.ok ()) →
      (typeChunks env i l).res = Except.ok ()) := by
  intro l
  induction l with
  | nil =>
    intro i
    exact ⟨by simp [typeChunks], ⟨0, by simp [typeChunks, strJoin]⟩,
      fun _ => by simp [typeChunks, strJoin], fun _ => rfl⟩
  | cons c rest ih =>
    intro i
    obtain ⟨ihmem, ⟨k, ihk⟩, ihfull, ihok⟩ := ih (i + 1)
    cases htc : env.typeChunk i with
    | error e =>
      refine ⟨?_, ⟨1, ?_⟩, fun hok => ?_, fun hall => ?_⟩
      · intro ev he
        simp [typeChunks, htc] at he
        subst he
        exact Or.inl ⟨c, rfl⟩
      · simp [typeChunks, htc, strJoin]
      · simp [typeChunks, htc] at hok
      · exact absurd (hall i) (by simp [htc])
    | ok u =>
      refine ⟨?_, ⟨k + 1, ?_⟩, fun hok => ?_, fun hall => ?_⟩
      · intro ev he
        simp [typeChunks, htc] at he
        rcases he with rfl | rfl | he
        · exact Or.inl ⟨c, rfl⟩
        · exact Or.inr ⟨50, rfl⟩
        · exact ihmem ev he
      · simp [typeChunks, htc, strJoin, ihk]
      · have hres : (typeChunks env (i + 1) rest).res = Except.ok () := by
          simp [typeChunks, htc] at hok
          exact hok
        simp [typeChunks, htc, strJoin, ihfull hres]
      · simp [typeChunks, htc]
        exact ihok hall

theorem typeChunks_mem (env : ZhihuEnv) (l : List String) (i : Nat) :
    ∀ e ∈ (typeChunks env i l).trace,
      (∃ s, e = Ev.typeKeys s) ∨ ∃ m, e = Ev.sleep m :=
  (typeChunks_facts env l i).1

theorem tweetFinish_facts (c : String) (r : Option String) (env : TwitterEnv)
    (tb : String) (htb : tb ∈ [tweetSel1, tweetSel2, tweetSel3]) :
    List.Sublist (probes (tweetFinish c r env tb).trace) twFinishBound ∧
    (typedText (tweetFinish c r env tb).trace = "" ∨
      typedText (tweetFinish c r env tb).trace = c) ∧
    (∀ u, Ev.connect u ∉ (tweetFinish c r env tb).trace) ∧
    ((tweetFinish c r env tb).res = Except.ok tweetNoTextboxStr →
      Ev.screenshot "/tmp/twitter_debug.png" ∈ (tweetFinish c r env tb).trace) ∧
    ((tweetFinish c r env tb).res = Except.ok tweetUncertainStr →
      Ev.screenshot "/tmp/twitter_debug.png" ∈ (tweetFinish c r env tb).trace) := by
  have hA : List.Sublist [tb] [tweetSel1, tweetSel2, tweetSel3] :=
    List.singleton_sublist.mpr htb
  by_cases h0 : env.count tb = 0
  · simp only [tweetFinish, h0, if_true, ok_bind, emit_def, pure_M]
    refine ⟨?_, Or.inl (by simp), by simp, fun _ => by simp, fun h => ?_⟩
    · simp
      exact List.mem_append_left _ htb
    · exfalso
      simp at h
      exact absurd h (by decide)
  · by_cases ha1 : env.alertSent1 ≠ 0
    · refine ⟨?_, ?_, ?_, fun h => ?_, fun h => ?_⟩
      · simp [tweetFinish, h0, alertCheck_bind_pos ha1]
        show List.Sublist ([tb] ++ ([alertSel] ++ ([] ++ [])))
          ([tweetSel1, tweetSel2, tweetSel3] ++ ([alertSel, replyAlertSel] ++
            (buttonSelectors ++ [alertSel, replyAlertSel])))
        exact List.Sublist.append hA (List.Sublist.append (by decide)
          (List.Sublist.append (List.nil_sublist _) (List.nil_sublist _)))
      · refine Or.inr (by simp [tweetFinish, h0, alertCheck_bind_pos ha1])
      · intro u
        simp [tweetFinish, h0, alertCheck_bind_pos ha1]
      · exfalso
        simp [tweetFinish, h0, alertCheck_bind_pos ha1] at h
        revert h
        apply append_ne_of_head "✅ " _ _ 0 (by decide) (by decide)
      · exfalso
        simp [tweetFinish, h0, alertCheck_bind_pos ha1] at h
        revert h
        apply append_ne_of_head "✅ " _ _ 0 (by decide) (by decide)
    · have ha1' : env.alertSent1 = 0 := by omega
      by_cases hr1 : env.replySent1 ≠ 0
      · refine ⟨?_, ?_, ?_, fun h => ?_, fun h => ?_⟩
        · simp [tweetFinish, h0, ha1', alertCheck_bind_zero_pos hr1]
          show List.Sublist ([tb] ++ ([alertSel, replyAlertSel] ++ ([] ++ [])))
            ([tweetSel1, tweetSel2, tweetSel3] ++ ([alertSel, replyAlertSel] ++
              (buttonSelectors ++ [alertSel, replyAlertSel])))
          exact List.Sublist.append hA (List.Sublist.append (List.Sublist.refl _)
            (List.Sublist.append (List.nil_sublist _) (List.nil_sublist _)))
        · refine Or.inr
            (by simp [tweetFinish, h0, ha1', alertCheck_bind_zero_pos hr1])
        · intro u
          simp [tweetFinish, h0, ha1', alertCheck_bind_zero_pos hr1]
        · exfalso
          simp [tweetFinish, h0, ha1', alertCheck_bind_zero_pos hr1] at h
          revert h
          apply append_ne_of_head "✅ " _ _ 0 (by decide) (by decide)
        · exfalso
          simp [tweetFinish, h0, ha1', alertCheck_bind_zero_pos hr1] at h
          revert h
          apply append_ne_of_head "✅ " _ _ 0 (by decide) (by decide)
      · have hr1' : env.replySent1 = 0 := by omega
        by_cases hs2 : env.alertSent2 ≠ 0
        · refine ⟨?_, ?_, ?_, fun h => ?_, fun h => ?_⟩
          · simp [tweetFinish, h0, ha1', hr1', alertCheck_bind_zero_zero,
              alertCheck_bind_pos hs2,
              bind_of_res_ok (buttonLoop_res env buttonSelectors)]
            show List.Sublist ([tb] ++ ([alertSel, replyAlertSel] ++
                (probes (buttonLoop env buttonSelectors).trace ++
                  ([alertSel] ++ []))))
              ([tweetSel1, tweetSel2, tweetSel3] ++ ([alertSel, replyAlertSel] ++
                (buttonSelectors ++ [alertSel, replyAlertSel])))
            refine List.Sublist.append hA (List.Sublist.append
              (List.Sublist.refl _)
              (List.Sublist.append (buttonLoop_probes env buttonSelectors) ?_))
            decide
          · refine Or.inr (by simp [tweetFinish, h0, ha1', hr1',
              alertCheck_bind_zero_zero, alertCheck_bind_pos hs2,
              bind_of_res_ok (buttonLoop_res env buttonSelectors),
              buttonLoop_typed])
          · intro u
            simp [tweetFinish, h0, ha1', hr1', alertCheck_bind_zero_zero,
              alertCheck_bind_pos hs2,
              bind_of_res_ok (buttonLoop_res env buttonSelectors),
              buttonLoop_no_connect]
          · exfalso
            simp [tweetFinish, h0, ha1', hr1', alertCheck_bind_zero_zero,
              alertCheck_bind_pos hs2,
              bind_of_res_ok (buttonLoop_res env buttonSelectors)] at h
            revert h
            apply append_ne_of_head "✅ " _ _ 0 (by decide) (by decide)
          · exfalso
            simp [tweetFinish, h0, ha1', hr1', alertCheck_bind_zero_zero,
              alertCheck_bind_pos hs2,
              bind_of_res_ok (buttonLoop_res env buttonSelectors)] at h
            revert h
            apply append_ne_of_head "✅ " _ _ 0 (by decide) (by decide)
        · have hs2' : env.alertSent2 = 0 := by omega
          by_cases hr2 : env.replySent2 ≠ 0
          · refine ⟨?_, ?_, ?_, fun h => ?_, fun h => ?_⟩
            · simp [tweetFinish, h0, ha1', hr1', hs2', alertCheck_bind_zero_zero,
                alertCheck_bind_zero_pos hr2,
                bind_of_res_ok (buttonLoop_res env buttonSelectors)]
              show List.Sublist ([tb] ++ ([alertSel, replyAlertSel] ++
                  (probes (buttonLoop env buttonSelectors).trace ++
                    ([alertSel, replyAlertSel] ++ []))))
                ([tweetSel1, tweetSel2, tweetSel3] ++
                  ([alertSel, replyAlertSel] ++
                    (buttonSelectors ++ [alertSel, replyAlertSel])))
              refine List.Sublist.append hA (List.Sublist.append
                (List.Sublist.refl _)
                (List.Sublist.append (buttonLoop_probes env buttonSelectors) ?_))
              decide
            · refine Or.inr (by simp [tweetFinish, h0, ha1', hr1', hs2',
                alertCheck_bind_zero_zero, alertCheck_bind_zero_pos hr2,
                bind_of_res_ok (buttonLoop_res env buttonSelectors),
                buttonLoop_typed])
            · intro u
              simp [tweetFinish, h0, ha1', hr1', hs2', alertCheck_bind_zero_zero,
                alertCheck_bind_zero_pos hr2,
                bind_of_res_ok (buttonLoop_res env buttonSelectors),
                buttonLoop_no_connect]
            · exfalso
              simp [tweetFinish, h0, ha1', hr1', hs2', alertCheck_bind_zero_zero,
                alertCheck_bind_zero_pos hr2,
                bind_of_res_ok (buttonLoop_res env buttonSelectors)] at h
              revert h
              apply append_ne_of_head "✅ " _ _ 0 (by decide) (by decide)
            · exfalso
              simp [tweetFinish, h0, ha1', hr1', hs2', alertCheck_bind_zero_zero,
                alertCheck_bind_zero_pos hr2,
                bind_of_res_ok (buttonLoop_res env buttonSelectors)] at h
              revert h
              apply append_ne_of_head "✅ " _ _ 0 (by decide) (by decide)
          · have hr2' : env.replySent2 = 0 := by omega
            refine ⟨?_, ?_, ?_, fun h => ?_, fun h => ?_⟩
            · simp [tweetFinish, h0, ha1', hr1', hs2', hr2',
                alertCheck_bind_zero_zero,
                bind_of_res_ok (buttonLoop_res env buttonSelectors)]
              show List.Sublist ([tb] ++ ([alertSel, replyAlertSel] ++
                  (probes (buttonLoop env buttonSelectors).trace ++
                    ([alertSel, replyAlertSel] ++ []))))
                ([tweetSel1, tweetSel2, tweetSel3] ++
                  ([alertSel, replyAlertSel] ++
                    (buttonSelectors ++ [alertSel, replyAlertSel])))
              refine List.Sublist.append hA (List.Sublist.append
                (List.Sublist.refl _)
                (List.Sublist.append (buttonLoop_probes env buttonSelectors) ?_))
              decide
            · refine Or.inr (by simp [tweetFinish, h0, ha1', hr1', hs2', hr2',
                alertCheck_bind_zero_zero,
                bind_of_res_ok (buttonLoop_res env buttonSelectors),
                buttonLoop_typed])
            · intro u
              simp [tweetFinish, h0, ha1', hr1', hs2', hr2',
                alertCheck_bind_zero_zero,
                bind_of_res_ok (buttonLoop_res env buttonSelectors),
                buttonLoop_no_connect]
            · exfalso
              simp [tweetFinish, h0, ha1', hr1', hs2', hr2',
                alertCheck_bind_zero_zero,
                bind_of_res_ok (buttonLoop_res env buttonSelectors)] at h
              exact absurd h (by decide)
            · simp [tweetFinish, h0, ha1', hr1', hs2', hr2',
                alertCheck_bind_zero_zero,
                bind_of_res_ok (buttonLoop_res env buttonSelectors)]

theorem replyTbChain_spec (env : TwitterEnv) :
    ∃ tb, (replyTbChain env).res = Except.ok tb ∧
      tb ∈ [tweetSel1, tweetSel2, tweetSel3] ∧
      (∀ e ∈ (replyTbChain env).trace, ∃ s,
        s ∈ [tweetSel1, tweetSel2, tweetSel3] ∧ e = Ev.probe s) ∧
      List.Sublist (probes (replyTbChain env).trace)
        [tweetSel1, tweetSel2, tweetSel3] := by
  by_cases h1 : env.count tweetSel1 = 0
  · by_cases h2 : env.count tweetSel2 = 0
    · refine ⟨tweetSel3, by simp [replyTbChain, h1, h2], by simp, ?_,
        by simp [replyTbChain, h1, h2]⟩
      intro e he
      simp [replyTbChain, h1, h2] at he
      rcases he with rfl | rfl
      · exact ⟨tweetSel1, by simp, rfl⟩
      · exact ⟨tweetSel2, by simp, rfl⟩
    · refine ⟨tweetSel2, by simp [replyTbChain, h1, h2], by simp, ?_,
        by simp [replyTbChain, h1, h2]⟩
      intro e he
      simp [replyTbChain, h1, h2] at he
      rcases he with rfl | rfl
      · exact ⟨tweetSel1, by simp, rfl⟩
      · exact ⟨tweetSel2, by simp, rfl⟩
  · refine ⟨tweetSel1, by simp [replyTbChain, h1], by simp, ?_,
      by simp [replyTbChain, h1]⟩
    intro e he
    simp [replyTbChain, h1] at he
    subst he
    exact ⟨tweetSel1, by simp, rfl⟩

theorem composeTbChain_spec (env : TwitterEnv) :
    ∃ tb, (composeTbChain env).res = Except.ok tb ∧
      tb ∈ [tweetSel1, tweetSel2, tweetSel3] ∧
      (∀ e ∈ (composeTbChain env).trace, ∃ s,
        s ∈ [tweetSel1, tweetSel2, tweetSel3] ∧ e = Ev.probe s) ∧
      List.Sublist (probes (composeTbChain env).trace)
        [tweetSel1, tweetSel2, tweetSel3] := by
  by_cases h1 : env.count tweetSel1 = 0
  · refine ⟨tweetSel3, by simp [composeTbChain, h1], by simp, ?_,
      by simp [composeTbChain, h1]⟩
    intro e he
    simp [composeTbChain, h1] at he
    subst he
    exact ⟨tweetSel1, by simp, rfl⟩
  · refine ⟨tweetSel1, by simp [composeTbChain, h1], by simp, ?_,
      by simp [composeTbChain, h1]⟩
    intro e he
    simp [composeTbChain, h1] at he
    subst he
    exact ⟨tweetSel1, by simp, rfl⟩

theorem tweetBody_facts (c : String) (r : Option String) (env : TwitterEnv) :
    List.Sublist (probes (tweetBody c r env).trace) twProbeBound ∧
    (typedText (tweetBody c r env).trace = "" ∨
      typedText (tweetBody c r env).trace = c) ∧
    (∀ u, Ev.connect u ∉ (tweetBody c r env).trace) ∧
    ((tweetBody c r env).res = Except.ok tweetNoTextboxStr →
      Ev.screenshot "/tmp/twitter_debug.png" ∈ (tweetBody c r env).trace) ∧
    ((tweetBody c r env).res = Except.ok tweetUncertainStr →
      Ev.screenshot "/tmp/twitter_debug.png" ∈ (tweetBody c r env).trace) := by
  obtain ⟨tbR, htbR, hmR, hmemR, hsubR⟩ := replyTbChain_spec env
  obtain ⟨fpR, ftyR, fcnR, fs1R, fs2R⟩ := tweetFinish_facts c r env tbR hmR
  obtain ⟨tbC, htbC, hmC, hmemC, hsubC⟩ := composeTbChain_spec env
  obtain ⟨fpC, ftyC, fcnC, fs1C, fs2C⟩ := tweetFinish_facts c r env tbC hmC
  have tyctR : typedText (replyTbChain env).trace = "" := by
    apply typedText_eq_empty
    intro e he
    rcases hmemR e he with ⟨s, _, rfl⟩
    simp
  have tyctC : typedText (composeTbChain env).trace = "" := by
    apply typedText_eq_empty
    intro e he
    rcases hmemC e he with ⟨s, _, rfl⟩
    simp
  have cnctR : ∀ u, Ev.connect u ∉ (replyTbChain env).trace := by
    intro u hm
    rcases hmemR _ hm with ⟨s, _, h⟩
    simp at h
  have cnctC : ∀ u, Ev.connect u ∉ (composeTbChain env).trace := by
    intro u hm
    rcases hmemC _ hm with ⟨s, _, h⟩
    simp at h
  by_cases hr : truthyOpt r = true
  · cases hg : env.gotoReply with
    | error e =>
      simp only [tweetBody, hr, if_true, hg, emit_def, emitP_def, liftE_def,
        ok_bind, err_bind, pure_M]
      refine ⟨by simp, Or.inl (by simp), by simp, fun h => by simp at h,
        fun h => by simp at h⟩
    | ok uu =>
      by_cases hc1 : env.count replySel1 = 0
      · by_cases hc2 : env.count replySel2 = 0
        · refine ⟨?_, Or.inl (by simp [tweetBody, hr, hg, hc1, hc2]),
            by simp [tweetBody, hr, hg, hc1, hc2], fun h => ?_, fun h => ?_⟩
          · simp [tweetBody, hr, hg, hc1, hc2]
            show List.Sublist ([replySel1] ++ ([replySel2] ++ ([] ++ [])))
              ([replySel1] ++ ([replySel1, replySel2] ++
                ([tweetSel1, tweetSel2, tweetSel3] ++ twFinishBound)))
            exact List.Sublist.append (List.Sublist.refl _)
              (List.Sublist.append (by decide)
                (List.Sublist.append (List.nil_sublist _) (List.nil_sublist _)))
          · simp [tweetBody, hr, hg, hc1, hc2] at h
            exact absurd h (by decide)
          · simp [tweetBody, hr, hg, hc1, hc2] at h
            exact absurd h (by decide)
        · cases hcr : env.clickReply with
          | error e2 =>
            refine ⟨?_, Or.inl (by simp [tweetBody, hr, hg, hc1, hc2, hcr]),
              by simp [tweetBody, hr, hg, hc1, hc2, hcr], fun h => ?_,
              fun h => ?_⟩
            · simp [tweetBody, hr, hg, hc1, hc2, hcr]
              show List.Sublist ([replySel1] ++ ([replySel2] ++ ([] ++ [])))
                ([replySel1] ++ ([replySel1, replySel2] ++
                  ([tweetSel1, tweetSel2, tweetSel3] ++ twFinishBound)))
              exact List.Sublist.append (List.Sublist.refl _)
                (List.Sublist.append (by decide)
                  (List.Sublist.append (List.nil_sublist _) (List.nil_sublist _)))
            · simp [tweetBody, hr, hg, hc1, hc2, hcr] at h
            · simp [tweetBody, hr, hg, hc1, hc2, hcr] at h
          | ok u2 =>
            refine ⟨?_, ?_, ?_, fun h => ?_, fun h => ?_⟩
            · simp [tweetBody, hr, hg, hc1, hc2, hcr, bind_of_res_ok htbR]
              show List.Sublist ([replySel1] ++ ([replySel2] ++
                  (probes (replyTbChain env).trace ++
                    probes (tweetFinish c r env tbR).trace)))
                ([replySel1] ++ ([replySel1, replySel2] ++
                  ([tweetSel1, tweetSel2, tweetSel3] ++ twFinishBound)))
              exact List.Sublist.append (List.Sublist.refl _)
                (List.Sublist.append (by decide)
                  (List.Sublist.append hsubR fpR))
            · simp [tweetBody, hr, hg, hc1, hc2, hcr, bind_of_res_ok htbR,
                tyctR]
              exact ftyR
            · intro u
              simp [tweetBody, hr, hg, hc1, hc2, hcr, bind_of_res_ok htbR]
              exact ⟨cnctR u, fcnR u⟩
            · simp [tweetBody, hr, hg, hc1, hc2, hcr, bind_of_res_ok htbR] at h
              have := fs1R h
              simp [tweetBody, hr, hg, hc1, hc2, hcr, bind_of_res_ok htbR, this]
            · simp [tweetBody, hr, hg, hc1, hc2, hcr, bind_of_res_ok htbR] at h
              have := fs2R h
              simp [tweetBody, hr, hg, hc1, hc2, hcr, bind_of_res_ok htbR, this]
      · cases hcr : env.clickReply with
        | error e2 =>
          refine ⟨?_, Or.inl (by simp [tweetBody, hr, hg, hc1, hcr]),
            by simp [tweetBody, hr, hg, hc1, hcr], fun h => ?_, fun h => ?_⟩
          · simp [tweetBody, hr, hg, hc1, hcr]
            show List.Sublist ([replySel1] ++ ([replySel1] ++ ([] ++ [])))
              ([replySel1] ++ ([replySel1, replySel2] ++
                ([tweetSel1, tweetSel2, tweetSel3] ++ twFinishBound)))
            exact List.Sublist.append (List.Sublist.refl _)
              (List.Sublist.append (by decide)
                (List.Sublist.append (List.nil_sublist _) (List.nil_sublist _)))
          · simp [tweetBody, hr, hg, hc1, hcr] at h
          · simp [tweetBody, hr, hg, hc1, hcr] at h
        | ok u2 =>
          refine ⟨?_, ?_, ?_, fun h => ?_, fun h => ?_⟩
          · simp [tweetBody, hr, hg, hc1, hcr, bind_of_res_ok htbR]
            show List.Sublist ([replySel1] ++ ([replySel1] ++
                (probes (replyTbChain env).trace ++
                  probes (tweetFinish c r env tbR).trace)))
              ([replySel1] ++ ([replySel1, replySel2] ++
                ([tweetSel1, tweetSel2, tweetSel3] ++ twFinishBound)))
            exact List.Sublist.append (List.Sublist.refl _)
              (List.Sublist.append (by decide)
                (List.Sublist.append hsubR fpR))
          · simp [tweetBody, hr, hg, hc1, hcr, bind_of_res_ok htbR, tyctR]
            exact ftyR
          · intro u
            simp [tweetBody, hr, hg, hc1, hcr, bind_of_res_ok htbR]
            exact ⟨cnctR u, fcnR u⟩
          · simp [tweetBody, hr, hg, hc1, hcr, bind_of_res_ok htbR] at h
            have := fs1R h
            simp [tweetBody, hr, hg, hc1, hcr, bind_of_res_ok htbR, this]
          · simp [tweetBody, hr, hg, hc1, hcr, bind_of_res_ok htbR] at h
            have := fs2R h
            simp [tweetBody, hr, hg, hc1, hcr, bind_of_res_ok htbR, this]
  · cases hg : env.gotoCompose with
    | error e =>
      simp only [tweetBody, hr, if_false, hg, emit_def, emitP_def, liftE_def,
        ok_bind, err_bind, pure_M]
      refine ⟨by simp, Or.inl (by simp), by simp, fun h => by simp at h,
        fun h => by simp at h⟩
    | ok uu =>
      refine ⟨?_, ?_, ?_, fun h => ?_, fun h => ?_⟩
      · simp [tweetBody, hr, hg, bind_of_res_ok htbC]
        show List.Sublist ([] ++ ([] ++
            (probes (composeTbChain env).trace ++
              probes (tweetFinish c r env tbC).trace)))
          ([replySel1] ++ ([replySel1, replySel2] ++
            ([tweetSel1, tweetSel2, tweetSel3] ++ twFinishBound)))
        exact List.Sublist.append (List.nil_sublist _)
          (List.Sublist.append (List.nil_sublist _)
            (List.Sublist.append hsubC fpC))
      · simp [tweetBody, hr, hg, bind_of_res_ok htbC, tyctC]
        exact ftyC
      · intro u
        simp [tweetBody, hr, hg, bind_of_res_ok htbC]
        exact ⟨cnctC u, fcnC u⟩
      · simp [tweetBody, hr, hg, bind_of_res_ok htbC] at h
        have := fs1C h
        simp [tweetBody, hr, hg, bind_of_res_ok htbC, this]
      · simp [tweetBody, hr, hg, bind_of_res_ok htbC] at h
        have := fs2C h
        simp [tweetBody, hr, hg, bind_of_res_ok htbC, this]

theorem tryCatchM_of_res_ok {body : M α} {h : String → M α} {a : α}
    (hb : body.res = Except.ok a) :
    tryCatchM body h = ⟨Except.ok a, body.trace⟩ := by
  unfold tryCatchM
  rw [hb]

theorem tryCatchM_of_res_err {body : M α} {h : String → M α} {e : String}
    (hb : body.res = Except.error e) :
    tryCatchM body h = ⟨(h e).res, body.trace ++ (h e).trace⟩ := by
  unfold tryCatchM
  rw [hb]

theorem warn_bind (P : Prop) [Decidable P] (w : String) (k : Unit → M α) :
    ((if P then emitP w else pure ()) >>= k) =
      ⟨(k ()).res, (if P then [Ev.printLn w] else []) ++ (k ()).trace⟩ := by
  split <;> rfl

/-- Bind through an `if` whose branches only record events. -/
theorem ite_unit_bind (P : Prop) [Decidable P] (t1 t2 : List Ev)
    (k : Unit → M α) :
    ((if P then (⟨Except.ok (), t1⟩ : M Unit) else ⟨Except.ok (), t2⟩) >>= k) =
      ⟨(k ()).res, (if P then t1 else t2) ++ (k ()).trace⟩ := by
  split <;> rfl

@[simp] theorem probes_ite (P : Prop) [Decidable P] (t1 t2 : List Ev) :
    probes (if P then t1 else t2) = if P then probes t1 else probes t2 := by
  split <;> rfl

@[simp] theorem typedText_ite (P : Prop) [Decidable P] (t1 t2 : List Ev) :
    typedText (if P then t1 else t2) =
      if P then typedText t1 else typedText t2 := by
  split <;> rfl

@[simp] theorem mem_ite_list (P : Prop) [Decidable P] (e : Ev)
    (t1 t2 : List Ev) :
    (e ∈ (if P then t1 else t2)) ↔ (if P then e ∈ t1 else e ∈ t2) := by
  split <;> rfl

theorem tweetHandler_ok {env : TwitterEnv} (hs : env.handlerShot = Except.ok ())
    (e : String) : tweetHandler env e =
      ⟨Except.ok (tweetErrStr e), [Ev.screenshot "/tmp/twitter_error.png"]⟩ := by
  simp [tweetHandler, hs]

theorem tweetHandler_err {env : TwitterEnv} {e2 : String}
    (hs : env.handlerShot = Except.error e2) (e : String) :
    tweetHandler env e =
      ⟨Except.error e2, [Ev.screenshot "/tmp/twitter_error.png"]⟩ := by
  simp [tweetHandler, hs]

theorem closePageFin_ok {env : TwitterEnv}
    (hpc : env.pageClose = Except.ok ()) :
    closePageFin env = ⟨Except.ok (), [Ev.closePage]⟩ := by
  simp [closePageFin, hpc]

theorem closePageFin_err {env : TwitterEnv} {e : String}
    (hpc : env.pageClose = Except.error e) :
    closePageFin env = ⟨Except.error e, [Ev.closePage]⟩ := by
  simp [closePageFin, hpc]

/-- Facts about the big `try`/`except` of `post_tweet` as a whole. -/
theorem tweetCatch_facts (c : String) (r : Option String) (env : TwitterEnv) :
    List.Sublist
      (probes (tryCatchM (tweetBody c r env) (tweetHandler env)).trace)
      twProbeBound ∧
    (typedText (tryCatchM (tweetBody c r env) (tweetHandler env)).trace = "" ∨
      typedText (tryCatchM (tweetBody c r env) (tweetHandler env)).trace = c) ∧
    (∀ u, Ev.connect u ∉
      (tryCatchM (tweetBody c r env) (tweetHandler env)).trace) ∧
    ((tryCatchM (tweetBody c r env) (tweetHandler env)).res =
        Except.ok tweetNoTextboxStr →
      Ev.screenshot "/tmp/twitter_debug.png" ∈
        (tryCatchM (tweetBody c r env) (tweetHandler env)).trace) ∧
    ((tryCatchM (tweetBody c r env) (tweetHandler env)).res =
        Except.ok tweetUncertainStr →
      Ev.screenshot "/tmp/twitter_debug.png" ∈
        (tryCatchM (tweetBody c r env) (tweetHandler env)).trace) := by
  obtain ⟨bp, bty, bcn, bs1, bs2⟩ := tweetBody_facts c r env
  cases hb : (tweetBody c r env).res with
  | ok a =>
    refine ⟨?_, ?_, ?_, fun h => ?_, fun h => ?_⟩
    · simpa [tryCatchM_of_res_ok hb] using bp
    · simpa [tryCatchM_of_res_ok hb] using bty
    · intro u
      simp [tryCatchM_of_res_ok hb]
      exact bcn u
    · simp [tryCatchM_of_res_ok hb] at h ⊢
      exact bs1 (by rw [hb, h])
    · simp [tryCatchM_of_res_ok hb] at h ⊢
      exact bs2 (by rw [hb, h])
  | error e =>
    cases hs : env.handlerShot with
    | ok u0 =>
      refine ⟨?_, ?_, ?_, fun h => ?_, fun h => ?_⟩
      · simpa [tryCatchM_of_res_err hb, tweetHandler_ok hs] using bp
      · simpa [tryCatchM_of_res_err hb, tweetHandler_ok hs] using bty
      · intro u
        simp [tryCatchM_of_res_err hb, tweetHandler_ok hs]
        exact bcn u
      · simp [tryCatchM_of_res_err hb, tweetHandler_ok hs, tweetErrStr] at h
        exact absurd h
          (append_ne_of_head "❌ Error: " _ _ 2 (by decide) (by decide))
      · simp [tryCatchM_of_res_err hb, tweetHandler_ok hs, tweetErrStr] at h
        exact absurd h
          (append_ne_of_head "❌ Error: " _ _ 0 (by decide) (by decide))
    | error e2 =>
      refine ⟨?_, ?_, ?_, fun h => ?_, fun h => ?_⟩
      · simpa [tryCatchM_of_res_err hb, tweetHandler_err hs] using bp
      · simpa [tryCatchM_of_res_err hb, tweetHandler_err hs] using bty
      · intro u
        simp [tryCatchM_of_res_err hb, tweetHandler_err hs]
        exact bcn u
      · simp [tryCatchM_of_res_err hb, tweetHandler_err hs] at h
      · simp [tryCatchM_of_res_err hb, tweetHandler_err hs] at h

theorem post_tweet_facts (c : String) (r : Option String) (d : Bool)
    (env : TwitterEnv) :
    List.Sublist (probes (post_tweet c r d env).trace) twProbeBound ∧
    (typedText (post_tweet c r d env).trace = "" ∨
      typedText (post_tweet c r d env).trace = c) ∧
    (∀ u, Ev.connect u ∈ (post_tweet c r d env).trace → u = CDP_URL) ∧
    ((post_tweet c r d env).res = Except.ok tweetNoTextboxStr →
      Ev.screenshot "/tmp/twitter_debug.png" ∈ (post_tweet c r d env).trace) ∧
    ((post_tweet c r d env).res = Except.ok tweetUncertainStr →
      Ev.screenshot "/tmp/twitter_debug.png" ∈ (post_tweet c r d env).trace) := by
  obtain ⟨ip, ity, icn, is1, is2⟩ := tweetCatch_facts c r env
  by_cases hd : d = true
  · subst hd
    refine ⟨by simp [post_tweet, warn_bind, ite_unit_bind], ?_, ?_, fun h => ?_, fun h => ?_⟩
    · refine Or.inl ?_
      by_cases hrr : truthyOpt r = true <;> simp [post_tweet, warn_bind, ite_unit_bind, hrr]
    · intro u hu
      by_cases hrr : truthyOpt r = true <;>
        simp [post_tweet, warn_bind, ite_unit_bind, hrr] at hu
    · simp [post_tweet, warn_bind, ite_unit_bind] at h
      exact absurd h (by decide)
    · simp [post_tweet, warn_bind, ite_unit_bind] at h
      exact absurd h (by decide)
  · cases hcn : env.connect with
    | error e =>
      refine ⟨by simp [post_tweet, warn_bind, ite_unit_bind, hd, hcn], Or.inl ?_, ?_,
        fun h => ?_, fun h => ?_⟩
      · simp [post_tweet, warn_bind, ite_unit_bind, hd, hcn]
      · intro u hu
        simp [post_tweet, warn_bind, ite_unit_bind, hd, hcn] at hu
        exact hu
      · simp [post_tweet, warn_bind, ite_unit_bind, hd, hcn, connectFailStr] at h
        exact absurd h
          (append_ne_of_head "❌ Failed to connect to browser: " _ _ 2
            (by decide) (by decide))
      · simp [post_tweet, warn_bind, ite_unit_bind, hd, hcn, connectFailStr] at h
        exact absurd h
          (append_ne_of_head "❌ Failed to connect to browser: " _ _ 0
            (by decide) (by decide))
    | ok uu =>
      by_cases hcx : env.contextsNonempty = true
      · cases hnp : env.newPage with
        | error e =>
          refine ⟨by simp [post_tweet, warn_bind, ite_unit_bind, hd, hcn, hcx,
              hnp], Or.inl ?_, ?_, fun h => ?_, fun h => ?_⟩
          · simp [post_tweet, warn_bind, ite_unit_bind, hd, hcn, hcx, hnp]
          · intro u hu
            simp [post_tweet, warn_bind, ite_unit_bind, hd, hcn, hcx, hnp] at hu
            exact hu
          · simp [post_tweet, warn_bind, ite_unit_bind, hd, hcn, hcx, hnp] at h
          · simp [post_tweet, warn_bind, ite_unit_bind, hd, hcn, hcx, hnp] at h
        | ok u0 =>
          cases hpc : env.pageClose with
          | error e2 =>
            refine ⟨?_, ?_, ?_, fun h => ?_, fun h => ?_⟩
            · simp [post_tweet, warn_bind, ite_unit_bind, hd, hcn, hcx, hnp,
                closePageFin_err hpc]
              exact ip
            · simp [post_tweet, warn_bind, ite_unit_bind, hd, hcn, hcx, hnp,
                closePageFin_err hpc]
              exact ity
            · intro u hu
              simp [post_tweet, warn_bind, ite_unit_bind, hd, hcn, hcx, hnp,
                closePageFin_err hpc] at hu
              rcases hu with rfl | hu
              · rfl
              · exact absurd hu (icn u)
            · simp [post_tweet, warn_bind, ite_unit_bind, hd, hcn, hcx, hnp,
                closePageFin_err hpc] at h
            · simp [post_tweet, warn_bind, ite_unit_bind, hd, hcn, hcx, hnp,
                closePageFin_err hpc] at h
          | ok u1 =>
            refine ⟨?_, ?_, ?_, fun h => ?_, fun h => ?_⟩
            · simp [post_tweet, warn_bind, ite_unit_bind, hd, hcn, hcx, hnp,
                closePageFin_ok hpc]
              exact ip
            · simp [post_tweet, warn_bind, ite_unit_bind, hd, hcn, hcx, hnp,
                closePageFin_ok hpc]
              exact ity
            · intro u hu
              simp [post_tweet, warn_bind, ite_unit_bind, hd, hcn, hcx, hnp,
                closePageFin_ok hpc] at hu
              rcases hu with rfl | hu
              · rfl
              · exact absurd hu (icn u)
            · simp [post_tweet, warn_bind, ite_unit_bind, hd, hcn, hcx, hnp,
                closePageFin_ok hpc] at h ⊢
              have := is1 h
              simp [this]
            · simp [post_tweet, warn_bind, ite_unit_bind, hd, hcn, hcx, hnp,
                closePageFin_ok hpc] at h ⊢
              have := is2 h
              simp [this]
      · refine ⟨by simp [post_tweet, warn_bind, ite_unit_bind, hd, hcn, hcx], Or.inl ?_, ?_,
          fun h => ?_, fun h => ?_⟩
        · simp [post_tweet, warn_bind, ite_unit_bind, hd, hcn, hcx]
        · intro u hu
          simp [post_tweet, warn_bind, ite_unit_bind, hd, hcn, hcx] at hu
          exact hu
        · simp [post_tweet, warn_bind, ite_unit_bind, hd, hcn, hcx] at h
          exact absurd h (by decide)
        · simp [post_tweet, warn_bind, ite_unit_bind, hd, hcn, hcx] at h
          exact absurd h (by decide)

/-! ## Trace lemmas for the Zhihu loops -/

theorem findTitleSel_spec (env : ZhihuEnv) (sels : List String) :
    ∃ o, (findTitleSel env sels).res = Except.ok o ∧
      (∀ e ∈ (findTitleSel env sels).trace, ∃ s, s ∈ sels ∧ e = Ev.probe s) ∧
      List.Sublist (probes (findTitleSel env sels).trace) sels ∧
      (∀ s, o = some s → s ∈ sels ∧ env.count s ≠ 0) := by
  induction sels with
  | nil => exact ⟨none, rfl, by simp [findTitleSel], by simp [findTitleSel],
      fun s h => by simp at h⟩
  | cons sel rest ih =>
    obtain ⟨o, ho, hmem, hsub, hval⟩ := ih
    by_cases hc : env.count sel = 0
    · refine ⟨o, ?_, ?_, ?_, ?_⟩
      · simp [findTitleSel, hc, ho]
      · intro e he
        simp [findTitleSel, hc] at he
        rcases he with rfl | he
        · exact ⟨sel, List.mem_cons_self _ _, rfl⟩
        · obtain ⟨s, hs, rfl⟩ := hmem e he
          exact ⟨s, List.mem_cons_of_mem _ hs, rfl⟩
      · simp [findTitleSel, hc]
        exact hsub
      · intro s hs
        obtain ⟨h1, h2⟩ := hval s hs
        exact ⟨List.mem_cons_of_mem _ h1, h2⟩
    · refine ⟨some sel, by simp [findTitleSel, hc], ?_, by simp [findTitleSel, hc],
        fun s hs => ?_⟩
      · intro e he
        simp [findTitleSel, hc] at he
        subst he
        exact ⟨sel, List.mem_cons_self _ _, rfl⟩
      · simp at hs
        subst hs
        exact ⟨List.mem_cons_self _ _, hc⟩

theorem findPublishFuel_spec (env : ZhihuEnv) (n : Nat) :
    ∀ (fuel i : Nat), ∃ o, (findPublishFuel env n fuel i).res = Except.ok o ∧
      ∀ e ∈ (findPublishFuel env n fuel i).trace, ∃ j, e = Ev.readBtn j := by
  intro fuel
  induction fuel with
  | zero => intro i; exact ⟨none, rfl, by simp [findPublishFuel]⟩
  | succ m ih =>
    intro i
    obtain ⟨o, ho, hmem⟩ := ih (i + 1)
    by_cases hi : i < n
    · by_cases hp : pyStrip (env.btnText i) = "发布"
      · exact ⟨some i, by simp [findPublishFuel, hi, hp],
          by simp [findPublishFuel, hi, hp]⟩
      · refine ⟨o, by simp [findPublishFuel, hi, hp, ho], ?_⟩
        intro e he
        simp [findPublishFuel, hi, hp] at he
        rcases he with rfl | he
        · exact ⟨i, rfl⟩
        · exact hmem e he
    · exact ⟨none, by simp [findPublishFuel, hi],
        by simp [findPublishFuel, hi]⟩

theorem findPublishIdx_spec (env : ZhihuEnv) (n i : Nat) :
    ∃ o, (findPublishIdx env n i).res = Except.ok o ∧
      ∀ e ∈ (findPublishIdx env n i).trace, ∃ j, e = Ev.readBtn j :=
  findPublishFuel_spec env n (n - i) i

theorem typeChunks_probes (env : ZhihuEnv) (l : List String) (i : Nat) :
    probes (typeChunks env i l).trace = [] := by
  apply probes_eq_nil
  intro e he
  rcases typeChunks_mem env l i e he with ⟨s, rfl⟩ | ⟨m, rfl⟩ <;> simp

theorem typeChunks_typed (env : ZhihuEnv) (l : List String) (i : Nat) :
    ∃ k, typedText (typeChunks env i l).trace = strJoin (l.take k) :=
  (typeChunks_facts env l i).2.1

theorem typeChunks_no_connect (env : ZhihuEnv) (l : List String) (i : Nat)
    (u : String) : Ev.connect u ∉ (typeChunks env i l).trace := by
  intro hm
  rcases typeChunks_mem env l i _ hm with ⟨s, h⟩ | ⟨m, h⟩ <;> simp at h

theorem zhihuConfirm_facts (env : ZhihuEnv) :
    (∀ e ∈ (zhihuConfirm env).trace,
      (∃ s, e = Ev.waitSelector s) ∨ (∃ s, e = Ev.printLn s) ∨
      (∃ m, e = Ev.sleep m) ∨ (∃ s, e = Ev.goto s) ∨
      (∃ s, e = Ev.screenshot s)) ∧
    ((zhihuConfirm env).res ≠ Except.ok zhNoTitleInputStr) ∧
    ((zhihuConfirm env).res ≠ Except.ok zhNoPublishBtnStr) ∧
    (∀ u, (zhihuConfirm env).res = Except.ok (zhUncertainStr u) →
      Ev.screenshot "/tmp/zhihu_result.png" ∈ (zhihuConfirm env).trace) := by
  cases hws : env.waitSuccess with
  | error e =>
    by_cases hp3 : pyIn "/p/" env.url3 = true ∧ pyIn "/edit" env.url3 = false
    · refine ⟨?_, ?_, ?_, fun u h => ?_⟩
      · intro ev he
        simp [zhihuConfirm, hws, hp3] at he
        rcases he with rfl | rfl
        · exact Or.inl ⟨_, rfl⟩
        · exact Or.inr (Or.inr (Or.inl ⟨_, rfl⟩))
      · simp [zhihuConfirm, hws, hp3]
        intro h
        exact absurd h
          (append_ne_of_head "✅ Published! URL: " _ _ 0 (by decide) (by decide))
      · simp [zhihuConfirm, hws, hp3]
        intro h
        exact absurd h
          (append_ne_of_head "✅ Published! URL: " _ _ 0 (by decide) (by decide))
      · simp [zhihuConfirm, hws, hp3, zhUncertainStr] at h
        exact absurd h
          (append_ne_append "✅ Published! URL: " _
            "⚠️  Uncertain if published. Current URL: " _ 0 (by decide)
            (by decide) (by decide))
    · refine ⟨?_, ?_, ?_, fun u h => ?_⟩
      · intro ev he
        simp [zhihuConfirm, hws, hp3] at he
        rcases he with rfl | rfl | rfl
        · exact Or.inl ⟨_, rfl⟩
        · exact Or.inr (Or.inr (Or.inl ⟨_, rfl⟩))
        · exact Or.inr (Or.inr (Or.inr (Or.inr ⟨_, rfl⟩)))
      · simp [zhihuConfirm, hws, hp3, zhUncertainStr]
        intro h
        exact absurd h
          (append_ne_of_head "⚠️  Uncertain if published. Current URL: " _ _ 0
            (by decide) (by decide))
      · simp [zhihuConfirm, hws, hp3, zhUncertainStr]
        intro h
        exact absurd h
          (append_ne_of_head "⚠️  Uncertain if published. Current URL: " _ _ 0
            (by decide) (by decide))
      · simp [zhihuConfirm, hws, hp3]
  | ok uu =>
    by_cases hp2 : pyIn "/p/" env.url2 = true
    · cases hg2 : env.goto2 with
      | error e2 =>
        by_cases hp3 : pyIn "/p/" env.url3 = true ∧ pyIn "/edit" env.url3 = false
        · refine ⟨?_, ?_, ?_, fun u h => ?_⟩
          · intro ev he
            simp [zhihuConfirm, hws, hp2, hg2, hp3] at he
            rcases he with rfl | rfl | rfl | rfl | rfl
            · exact Or.inl ⟨_, rfl⟩
            · exact Or.inr (Or.inl ⟨_, rfl⟩)
            · exact Or.inr (Or.inr (Or.inl ⟨_, rfl⟩))
            · exact Or.inr (Or.inr (Or.inr (Or.inl ⟨_, rfl⟩)))
            · exact Or.inr (Or.inr (Or.inl ⟨_, rfl⟩))
          · simp [zhihuConfirm, hws, hp2, hg2, hp3]
            intro h
            exact absurd h
              (append_ne_of_head "✅ Published! URL: " _ _ 0 (by decide)
                (by decide))
          · simp [zhihuConfirm, hws, hp2, hg2, hp3]
            intro h
            exact absurd h
              (append_ne_of_head "✅ Published! URL: " _ _ 0 (by decide)
                (by decide))
          · simp [zhihuConfirm, hws, hp2, hg2, hp3, zhUncertainStr] at h
            exact absurd h
              (append_ne_append "✅ Published! URL: " _
                "⚠️  Uncertain if published. Current URL: " _ 0 (by decide)
                (by decide) (by decide))
        · refine ⟨?_, ?_, ?_, fun u h => ?_⟩
          · intro ev he
            simp [zhihuConfirm, hws, hp2, hg2, hp3] at he
            rcases he with rfl | rfl | rfl | rfl | rfl | rfl
            · exact Or.inl ⟨_, rfl⟩
            · exact Or.inr (Or.inl ⟨_, rfl⟩)
            · exact Or.inr (Or.inr (Or.inl ⟨_, rfl⟩))
            · exact Or.inr (Or.inr (Or.inr (Or.inl ⟨_, rfl⟩)))
            · exact Or.inr (Or.inr (Or.inl ⟨_, rfl⟩))
            · exact Or.inr (Or.inr (Or.inr (Or.inr ⟨_, rfl⟩)))
          · simp [zhihuConfirm, hws, hp2, hg2, hp3, zhUncertainStr]
            intro h
            exact absurd h
              (append_ne_of_head "⚠️  Uncertain if published. Current URL: " _ _
                0 (by decide) (by decide))
          · simp [zhihuConfirm, hws, hp2, hg2, hp3, zhUncertainStr]
            intro h
            exact absurd h
              (append_ne_of_head "⚠️  Uncertain if published. Current URL: " _ _
                0 (by decide) (by decide))
          · simp [zhihuConfirm, hws, hp2, hg2, hp3]
      | ok u2 =>
        refine ⟨?_, ?_, ?_, fun u h => ?_⟩
        · intro ev he
          simp [zhihuConfirm, hws, hp2, hg2] at he
          rcases he with rfl | rfl | rfl | rfl | rfl
          · exact Or.inl ⟨_, rfl⟩
          · exact Or.inr (Or.inl ⟨_, rfl⟩)
          · exact Or.inr (Or.inr (Or.inl ⟨_, rfl⟩))
          · exact Or.inr (Or.inr (Or.inr (Or.inl ⟨_, rfl⟩)))
          · exact Or.inr (Or.inr (Or.inl ⟨_, rfl⟩))
        · simp [zhihuConfirm, hws, hp2, hg2]
          intro h
          exact absurd h
            (append_ne_of_head "✅ Published! URL: " _ _ 0 (by decide)
              (by decide))
        · simp [zhihuConfirm, hws, hp2, hg2]
          intro h
          exact absurd h
            (append_ne_of_head "✅ Published! URL: " _ _ 0 (by decide)
              (by decide))
        · simp [zhihuConfirm, hws, hp2, hg2, zhUncertainStr] at h
          exact absurd h
            (append_ne_append "✅ Published! URL: " _
              "⚠️  Uncertain if published. Current URL: " _ 0 (by decide)
              (by decide) (by decide))
    · refine ⟨?_, ?_, ?_, fun u h => ?_⟩
      · intro ev he
        simp [zhihuConfirm, hws, hp2] at he
        rcases he with rfl | rfl | rfl
        · exact Or.inl ⟨_, rfl⟩
        · exact Or.inr (Or.inl ⟨_, rfl⟩)
        · exact Or.inr (Or.inr (Or.inl ⟨_, rfl⟩))
      · simp [zhihuConfirm, hws, hp2]
        intro h
        exact absurd h (by decide)
      · simp [zhihuConfirm, hws, hp2]
        intro h
        exact absurd h (by decide)
      · simp [zhihuConfirm, hws, hp2, zhUncertainStr] at h
        exact absurd h.symm
          (append_ne_of_head "⚠️  Uncertain if published. Current URL: " _ _ 0
            (by decide) (by decide))

theorem zhTitleFound_facts (title content : String) (env : ZhihuEnv) :
    List.Sublist (probes (zhTitleFound title content env).trace) ["button"] ∧
    (∃ k, typedText (zhTitleFound title content env).trace =
      title ++ strJoin ((zhihuChunks content).take k)) ∧
    ((∀ j, env.typeChunk j = Except.ok ()) →
      typedText (zhTitleFound title content env).trace = title ++ content) ∧
    (∀ u, Ev.connect u ∉ (zhTitleFound title content env).trace) ∧
    ((zhTitleFound title content env).res ≠ Except.ok zhNoTitleInputStr) ∧
    ((zhTitleFound title content env).res = Except.ok zhNoPublishBtnStr →
      Ev.screenshot "/tmp/zhihu_debug.png" ∈
        (zhTitleFound title content env).trace) ∧
    (∀ u, (zhTitleFound title content env).res = Except.ok (zhUncertainStr u) →
      Ev.screenshot "/tmp/zhihu_result.png" ∈
        (zhTitleFound title content env).trace) := by
  obtain ⟨tcmem, ⟨k0, htk0⟩, tcfull, tcok⟩ :=
    typeChunks_facts env (zhihuChunks content) 0
  have tcpr := typeChunks_probes env (zhihuChunks content) 0
  have tccn := typeChunks_no_connect env (zhihuChunks content) 0
  obtain ⟨po, hpo, pmem⟩ := findPublishIdx_spec env env.buttonCount 0
  obtain ⟨cmem, cne1, cne2, cu⟩ := zhihuConfirm_facts env
  have tyfp : typedText (findPublishIdx env env.buttonCount 0).trace = "" := by
    apply typedText_eq_empty
    intro e he
    rcases pmem e he with ⟨j, rfl⟩
    simp
  have tycf : typedText (zhihuConfirm env).trace = "" := by
    apply typedText_eq_empty
    intro e he
    rcases cmem e he with ⟨s, rfl⟩ | ⟨s, rfl⟩ | ⟨m, rfl⟩ | ⟨s, rfl⟩ | ⟨s, rfl⟩ <;>
      simp
  have prfp : probes (findPublishIdx env env.buttonCount 0).trace = [] := by
    apply probes_eq_nil
    intro e he
    rcases pmem e he with ⟨j, rfl⟩
    simp
  have prcf : probes (zhihuConfirm env).trace = [] := by
    apply probes_eq_nil
    intro e he
    rcases cmem e he with ⟨s, rfl⟩ | ⟨s, rfl⟩ | ⟨m, rfl⟩ | ⟨s, rfl⟩ | ⟨s, rfl⟩ <;>
      simp
  have cnfp : ∀ u, Ev.connect u ∉ (findPublishIdx env env.buttonCount 0).trace := by
    intro u hm
    rcases pmem _ hm with ⟨j, h⟩
    simp at h
  have cncf : ∀ u, Ev.connect u ∉ (zhihuConfirm env).trace := by
    intro u hm
    rcases cmem _ hm with ⟨s, h⟩ | ⟨s, h⟩ | ⟨m, h⟩ | ⟨s, h⟩ | ⟨s, h⟩ <;> simp at h
  cases htc : (typeChunks env 0 (zhihuChunks content)).res with
  | error e =>
    refine ⟨?_, ⟨k0, ?_⟩, fun hall => ?_, ?_, fun h => ?_, fun h => ?_,
      fun u h => ?_⟩
    · simp [zhTitleFound, bind_of_res_err htc, tcpr]
    · simp [zhTitleFound, bind_of_res_err htc, htk0]
    · exact absurd (tcok hall) (by simp [htc])
    · intro u
      simp [zhTitleFound, bind_of_res_err htc]
      exact tccn u
    · simp [zhTitleFound, bind_of_res_err htc] at h
    · simp [zhTitleFound, bind_of_res_err htc] at h
    · simp [zhTitleFound, bind_of_res_err htc] at h
  | ok u0 =>
    have htyc : typedText (typeChunks env 0 (zhihuChunks content)).trace =
        content := by
      rw [tcfull htc, zhihuChunks_join]
    cases hpid : po with
    | none =>
      refine ⟨?_, ⟨(zhihuChunks content).length, ?_⟩, fun hall => ?_, ?_,
        fun h => ?_, fun h => ?_, fun u h => ?_⟩
      · simp [zhTitleFound, bind_of_res_ok htc, bind_of_res_ok hpo, hpid,
          tcpr, prfp]
      · simp [zhTitleFound, bind_of_res_ok htc, bind_of_res_ok hpo, hpid,
          htyc, zhihuChunks_join, tyfp]
      · simp [zhTitleFound, bind_of_res_ok htc, bind_of_res_ok hpo, hpid, htyc, tyfp]
      · intro u
        simp [zhTitleFound, bind_of_res_ok htc, bind_of_res_ok hpo, hpid]
        exact ⟨tccn u, cnfp u⟩
      · simp [zhTitleFound, bind_of_res_ok htc, bind_of_res_ok hpo, hpid] at h
        exact absurd h (by decide)
      · simp [zhTitleFound, bind_of_res_ok htc, bind_of_res_ok hpo, hpid]
      · simp [zhTitleFound, bind_of_res_ok htc, bind_of_res_ok hpo, hpid,
          zhUncertainStr] at h
        exact absurd h.symm
          (append_ne_of_head "⚠️  Uncertain if published. Current URL: " _ _ 0
            (by decide) (by decide))
    | some i =>
      by_cases hpd : env.publishDisabled = true
      · refine ⟨?_, ⟨(zhihuChunks content).length, ?_⟩, fun hall => ?_, ?_,
          fun h => ?_, fun h => ?_, fun u h => ?_⟩
        · simp [zhTitleFound, bind_of_res_ok htc, bind_of_res_ok hpo, hpid,
            hpd, tcpr, prfp]
        · simp [zhTitleFound, bind_of_res_ok htc, bind_of_res_ok hpo, hpid,
            hpd, htyc, zhihuChunks_join, tyfp]
        · simp [zhTitleFound, bind_of_res_ok htc, bind_of_res_ok hpo, hpid,
            hpd, htyc, tyfp]
        · intro u
          simp [zhTitleFound, bind_of_res_ok htc, bind_of_res_ok hpo, hpid, hpd]
          exact ⟨tccn u, cnfp u⟩
        · simp [zhTitleFound, bind_of_res_ok htc, bind_of_res_ok hpo, hpid,
            hpd] at h
          exact absurd h (by decide)
        · simp [zhTitleFound, bind_of_res_ok htc, bind_of_res_ok hpo, hpid,
            hpd] at h
          exact absurd h (by decide)
        · simp [zhTitleFound, bind_of_res_ok htc, bind_of_res_ok hpo, hpid,
            hpd, zhUncertainStr] at h
          exact absurd h.symm
            (append_ne_of_head "⚠️  Uncertain if published. Current URL: " _ _
              0 (by decide) (by decide))
      · cases hpc : env.publishClick with
        | error e3 =>
          refine ⟨?_, ⟨(zhihuChunks content).length, ?_⟩, fun hall => ?_, ?_,
            fun h => ?_, fun h => ?_, fun u h => ?_⟩
          · simp [zhTitleFound, bind_of_res_ok htc, bind_of_res_ok hpo, hpid,
              hpd, hpc, tcpr, prfp]
          · simp [zhTitleFound, bind_of_res_ok htc, bind_of_res_ok hpo, hpid,
              hpd, hpc, htyc, zhihuChunks_join, tyfp]
          · simp [zhTitleFound, bind_of_res_ok htc, bind_of_res_ok hpo, hpid,
              hpd, hpc, htyc, tyfp]
          · intro u
            simp [zhTitleFound, bind_of_res_ok htc, bind_of_res_ok hpo, hpid,
              hpd, hpc]
            exact ⟨tccn u, cnfp u⟩
          · simp [zhTitleFound, bind_of_res_ok htc, bind_of_res_ok hpo, hpid,
              hpd, hpc] at h
          · simp [zhTitleFound, bind_of_res_ok htc, bind_of_res_ok hpo, hpid,
              hpd, hpc] at h
          · simp [zhTitleFound, bind_of_res_ok htc, bind_of_res_ok hpo, hpid,
              hpd, hpc] at h
        | ok u3 =>
          refine ⟨?_, ⟨(zhihuChunks content).length, ?_⟩, fun hall => ?_, ?_,
            fun h => ?_, fun h => ?_, fun u h => ?_⟩
          · simp [zhTitleFound, bind_of_res_ok htc, bind_of_res_ok hpo, hpid,
              hpd, hpc, tcpr, prfp, prcf]
          · simp [zhTitleFound, bind_of_res_ok htc, bind_of_res_ok hpo, hpid,
              hpd, hpc, htyc, zhihuChunks_join, tyfp, tycf]
          · simp [zhTitleFound, bind_of_res_ok htc, bind_of_res_ok hpo, hpid,
              hpd, hpc, htyc, tyfp, tycf]
          · intro u
            simp [zhTitleFound, bind_of_res_ok htc, bind_of_res_ok hpo, hpid,
              hpd, hpc]
            exact ⟨tccn u, cnfp u, cncf u⟩
          · simp [zhTitleFound, bind_of_res_ok htc, bind_of_res_ok hpo, hpid,
              hpd, hpc] at h
            exact absurd h cne1
          · simp [zhTitleFound, bind_of_res_ok htc, bind_of_res_ok hpo, hpid,
              hpd, hpc] at h
            exact absurd h cne2
          · simp [zhTitleFound, bind_of_res_ok htc, bind_of_res_ok hpo, hpid,
              hpd, hpc] at h
            have := cu u h
            simp [zhTitleFound, bind_of_res_ok htc, bind_of_res_ok hpo, hpid,
              hpd, hpc, this]

theorem zhihuBody_facts (title content : String) (env : ZhihuEnv) :
    List.Sublist (probes (zhihuBody title content env).trace) zhProbeBound ∧
    (typedText (zhihuBody title content env).trace = "" ∨
      ∃ k, typedText (zhihuBody title content env).trace =
        title ++ strJoin ((zhihuChunks content).take k)) ∧
    ((∀ j, env.typeChunk j = Except.ok ()) →
      (typedText (zhihuBody title content env).trace = "" ∨
        typedText (zhihuBody title content env).trace = title ++ content)) ∧
    (∀ u, Ev.connect u ∉ (zhihuBody title content env).trace) ∧
    ((zhihuBody title content env).res = Except.ok zhNoTitleInputStr →
      Ev.screenshot "/tmp/zhihu_debug.png" ∈ (zhihuBody title content env).trace) ∧
    ((zhihuBody title content env).res = Except.ok zhNoPublishBtnStr →
      Ev.screenshot "/tmp/zhihu_debug.png" ∈ (zhihuBody title content env).trace) ∧
    (∀ u, (zhihuBody title content env).res = Except.ok (zhUncertainStr u) →
      Ev.screenshot "/tmp/zhihu_result.png" ∈
        (zhihuBody title content env).trace) := by
  obtain ⟨o, ho, tmem, tsub, tval⟩ := findTitleSel_spec env zhihuTitleSelectors
  obtain ⟨tf1, tf2, tf3, tf4, tf5, tf6, tf7⟩ :=
    zhTitleFound_facts title content env
  have tyt : typedText (findTitleSel env zhihuTitleSelectors).trace = "" := by
    apply typedText_eq_empty
    intro e he
    rcases tmem e he with ⟨s, _, rfl⟩
    simp
  have cnt : ∀ u, Ev.connect u ∉ (findTitleSel env zhihuTitleSelectors).trace := by
    intro u hm
    rcases tmem _ hm with ⟨s, _, h⟩
    simp at h
  cases hg1 : env.goto1 with
  | error e =>
    simp only [zhihuBody, hg1, emit_def, emitP_def, liftE_def, ok_bind,
      err_bind, pure_M]
    refine ⟨by simp, Or.inl (by simp), fun _ => Or.inl (by simp), by simp,
      fun h => by simp at h, fun h => by simp at h, fun u h => by simp at h⟩
  | ok u1 =>
    by_cases hsi : pyIn "signin" env.url1 = true
    · simp only [zhihuBody, hg1, hsi, if_true, emit_def, emitP_def, liftE_def,
        ok_bind, err_bind, pure_M]
      refine ⟨by simp, Or.inl (by simp), fun _ => Or.inl (by simp), by simp,
        fun h => ?_, fun h => ?_, fun u h => ?_⟩
      · simp at h
        exact absurd h (by decide)
      · simp at h
        exact absurd h (by decide)
      · simp [zhUncertainStr] at h
        exact absurd h.symm
          (append_ne_of_head "⚠️  Uncertain if published. Current URL: " _ _ 0
            (by decide) (by decide))
    · cases hwe : env.waitEditor with
      | error e =>
        simp only [zhihuBody, hg1, hsi, hwe, if_false, emit_def, emitP_def,
          liftE_def, ok_bind, err_bind, pure_M]
        refine ⟨by simp, Or.inl (by simp), fun _ => Or.inl (by simp), by simp,
          fun h => by simp at h, fun h => by simp at h, fun u h => by simp at h⟩
      | ok u2 =>
        cases o with
        | none =>
          by_cases hct : env.count "textarea" = 0
          · refine ⟨?_, Or.inl ?_, fun hall => Or.inl ?_, ?_, fun h => ?_,
              fun h => ?_, fun u h => ?_⟩
            · simp [zhihuBody, hg1, hsi, hwe, bind_of_res_ok ho, hct]
              show List.Sublist
                (probes (findTitleSel env zhihuTitleSelectors).trace ++
                  (["textarea"] ++ []))
                (zhihuTitleSelectors ++
                  ((zhihuTitleSelectors ++ ["textarea"]) ++ ["button"]))
              exact List.Sublist.append tsub (List.Sublist.append (by decide)
                (List.nil_sublist _))
            · simp [zhihuBody, hg1, hsi, hwe, bind_of_res_ok ho, hct, tyt]
            · simp [zhihuBody, hg1, hsi, hwe, bind_of_res_ok ho, hct, tyt]
            · intro u
              simp [zhihuBody, hg1, hsi, hwe, bind_of_res_ok ho, hct]
              exact cnt u
            · simp [zhihuBody, hg1, hsi, hwe, bind_of_res_ok ho, hct]
            · simp [zhihuBody, hg1, hsi, hwe, bind_of_res_ok ho, hct] at h
              exact absurd h (by decide)
            · simp [zhihuBody, hg1, hsi, hwe, bind_of_res_ok ho, hct,
                zhUncertainStr] at h
              exact absurd h.symm
                (append_ne_of_head "⚠️  Uncertain if published. Current URL: "
                  _ _ 0 (by decide) (by decide))
          · refine ⟨?_, ?_, fun hall => ?_, ?_, fun h => ?_, fun h => ?_,
              fun u h => ?_⟩
            · simp [zhihuBody, hg1, hsi, hwe, bind_of_res_ok ho, hct]
              show List.Sublist
                (probes (findTitleSel env zhihuTitleSelectors).trace ++
                  (["textarea"] ++ probes (zhTitleFound title content env).trace))
                (zhihuTitleSelectors ++
                  ((zhihuTitleSelectors ++ ["textarea"]) ++ ["button"]))
              exact List.Sublist.append tsub
                (List.Sublist.append (by decide) tf1)
            · obtain ⟨k, hk⟩ := tf2
              refine Or.inr ⟨k, ?_⟩
              simp [zhihuBody, hg1, hsi, hwe, bind_of_res_ok ho, hct, tyt, hk]
            · refine Or.inr ?_
              simp [zhihuBody, hg1, hsi, hwe, bind_of_res_ok ho, hct, tyt,
                tf3 hall]
            · intro u
              simp [zhihuBody, hg1, hsi, hwe, bind_of_res_ok ho, hct]
              exact ⟨cnt u, tf4 u⟩
            · simp [zhihuBody, hg1, hsi, hwe, bind_of_res_ok ho, hct] at h
              exact absurd h tf5
            · simp [zhihuBody, hg1, hsi, hwe, bind_of_res_ok ho, hct] at h
              have := tf6 h
              simp [zhihuBody, hg1, hsi, hwe, bind_of_res_ok ho, hct, this]
            · simp [zhihuBody, hg1, hsi, hwe, bind_of_res_ok ho, hct] at h
              have := tf7 u h
              simp [zhihuBody, hg1, hsi, hwe, bind_of_res_ok ho, hct, this]
        | some s =>
          obtain ⟨hsmem, hcs⟩ := tval s rfl
          refine ⟨?_, ?_, fun hall => ?_, ?_, fun h => ?_, fun h => ?_,
            fun u h => ?_⟩
          · simp [zhihuBody, hg1, hsi, hwe, bind_of_res_ok ho, hcs]
            show List.Sublist
              (probes (findTitleSel env zhihuTitleSelectors).trace ++
                ([s] ++ probes (zhTitleFound title content env).trace))
              (zhihuTitleSelectors ++
                ((zhihuTitleSelectors ++ ["textarea"]) ++ ["button"]))
            refine List.Sublist.append tsub (List.Sublist.append ?_ tf1)
            exact List.singleton_sublist.mpr (List.mem_append_left _ hsmem)
          · obtain ⟨k, hk⟩ := tf2
            refine Or.inr ⟨k, ?_⟩
            simp [zhihuBody, hg1, hsi, hwe, bind_of_res_ok ho, hcs, tyt, hk]
          · refine Or.inr ?_
            simp [zhihuBody, hg1, hsi, hwe, bind_of_res_ok ho, hcs, tyt,
              tf3 hall]
          · intro u
            simp [zhihuBody, hg1, hsi, hwe, bind_of_res_ok ho, hcs]
            exact ⟨cnt u, tf4 u⟩
          · simp [zhihuBody, hg1, hsi, hwe, bind_of_res_ok ho, hcs] at h
            exact absurd h tf5
          · simp [zhihuBody, hg1, hsi, hwe, bind_of_res_ok ho, hcs] at h
            have := tf6 h
            simp [zhihuBody, hg1, hsi, hwe, bind_of_res_ok ho, hcs, this]
          · simp [zhihuBody, hg1, hsi, hwe, bind_of_res_ok ho, hcs] at h
            have := tf7 u h
            simp [zhihuBody, hg1, hsi, hwe, bind_of_res_ok ho, hcs, this]

theorem zhihuHandler_ok {env : ZhihuEnv} (hs : env.handlerShot = Except.ok ())
    (e : String) : zhihuHandler env e =
      ⟨Except.ok (zhihuErrStr e), [Ev.screenshot "/tmp/zhihu_error.png"]⟩ := by
  simp [zhihuHandler, hs]

theorem zhihuHandler_err {env : ZhihuEnv} {e2 : String}
    (hs : env.handlerShot = Except.error e2) (e : String) :
    zhihuHandler env e =
      ⟨Except.error e2, [Ev.screenshot "/tmp/zhihu_error.png"]⟩ := by
  simp [zhihuHandler, hs]

/-- Facts about the big `try`/`except` of `post_article` as a whole. -/
theorem zhihuCatch_facts (title c : String) (env : ZhihuEnv) :
    List.Sublist
      (probes (tryCatchM (zhihuBody title c env) (zhihuHandler env)).trace)
      zhProbeBound ∧
    (typedText (tryCatchM (zhihuBody title c env) (zhihuHandler env)).trace =
        "" ∨
      ∃ k, typedText
          (tryCatchM (zhihuBody title c env) (zhihuHandler env)).trace =
        title ++ strJoin ((zhihuChunks c).take k)) ∧
    ((∀ j, env.typeChunk j = Except.ok ()) →
      (typedText (tryCatchM (zhihuBody title c env) (zhihuHandler env)).trace =
          "" ∨
        typedText (tryCatchM (zhihuBody title c env) (zhihuHandler env)).trace =
          title ++ c)) ∧
    (∀ u, Ev.connect u ∉
      (tryCatchM (zhihuBody title c env) (zhihuHandler env)).trace) ∧
    ((tryCatchM (zhihuBody title c env) (zhihuHandler env)).res =
        Except.ok zhNoTitleInputStr →
      Ev.screenshot "/tmp/zhihu_debug.png" ∈
        (tryCatchM (zhihuBody title c env) (zhihuHandler env)).trace) ∧
    ((tryCatchM (zhihuBody title c env) (zhihuHandler env)).res =
        Except.ok zhNoPublishBtnStr →
      Ev.screenshot "/tmp/zhihu_debug.png" ∈
        (tryCatchM (zhihuBody title c env) (zhihuHandler env)).trace) ∧
    (∀ u, (tryCatchM (zhihuBody title c env) (zhihuHandler env)).res =
        Except.ok (zhUncertainStr u) →
      Ev.screenshot "/tmp/zhihu_result.png" ∈
        (tryCatchM (zhihuBody title c env) (zhihuHandler env)).trace) := by
  obtain ⟨b1, b2, b3, b4, b5, b6, b7⟩ := zhihuBody_facts title c env
  cases hb : (zhihuBody title c env).res with
  | ok a =>
    refine ⟨?_, ?_, fun hall => ?_, ?_, fun h => ?_, fun h => ?_,
      fun u h => ?_⟩
    · simpa [tryCatchM_of_res_ok hb] using b1
    · simpa [tryCatchM_of_res_ok hb] using b2
    · simpa [tryCatchM_of_res_ok hb] using b3 hall
    · intro u
      simp [tryCatchM_of_res_ok hb]
      exact b4 u
    · simp [tryCatchM_of_res_ok hb] at h ⊢
      exact b5 (by rw [hb, h])
    · simp [tryCatchM_of_res_ok hb] at h ⊢
      exact b6 (by rw [hb, h])
    · simp [tryCatchM_of_res_ok hb] at h ⊢
      exact b7 u (by rw [hb, h])
  | error e =>
    cases hs : env.handlerShot with
    | ok u0 =>
      refine ⟨?_, ?_, fun hall => ?_, ?_, fun h => ?_, fun h => ?_,
        fun u h => ?_⟩
      · simpa [tryCatchM_of_res_err hb, zhihuHandler_ok hs] using b1
      · simpa [tryCatchM_of_res_err hb, zhihuHandler_ok hs] using b2
      · simpa [tryCatchM_of_res_err hb, zhihuHandler_ok hs] using b3 hall
      · intro u
        simp [tryCatchM_of_res_err hb, zhihuHandler_ok hs]
        exact b4 u
      · simp [tryCatchM_of_res_err hb, zhihuHandler_ok hs, zhihuErrStr] at h
        exact absurd h
          (append_ne_of_head "❌ Error: " _ _ 2 (by decide) (by decide))
      · simp [tryCatchM_of_res_err hb, zhihuHandler_ok hs, zhihuErrStr] at h
        exact absurd h
          (append_ne_of_head "❌ Error: " _ _ 2 (by decide) (by decide))
      · simp [tryCatchM_of_res_err hb, zhihuHandler_ok hs, zhihuErrStr,
          zhUncertainStr] at h
        exact absurd h
          (append_ne_append "❌ Error: " _
            "⚠️  Uncertain if published. Current URL: " _ 0 (by decide)
            (by decide) (by decide))
    | error e2 =>
      refine ⟨?_, ?_, fun hall => ?_, ?_, fun h => ?_, fun h => ?_,
        fun u h => ?_⟩
      · simpa [tryCatchM_of_res_err hb, zhihuHandler_err hs] using b1
      · simpa [tryCatchM_of_res_err hb, zhihuHandler_err hs] using b2
      · simpa [tryCatchM_of_res_err hb, zhihuHandler_err hs] using b3 hall
      · intro u
        simp [tryCatchM_of_res_err hb, zhihuHandler_err hs]
        exact b4 u
      · simp [tryCatchM_of_res_err hb, zhihuHandler_err hs] at h
      · simp [tryCatchM_of_res_err hb, zhihuHandler_err hs] at h
      · simp [tryCatchM_of_res_err hb, zhihuHandler_err hs] at h

theorem zhihuAfterTitle_facts (title c : String) (d : Bool) (env : ZhihuEnv) :
    List.Sublist (probes (zhihuAfterTitle title c d env).trace) zhProbeBound ∧
    (typedText (zhihuAfterTitle title c d env).trace = "" ∨
      ∃ k, typedText (zhihuAfterTitle title c d env).trace =
        title ++ strJoin ((zhihuChunks c).take k)) ∧
    ((∀ j, env.typeChunk j = Except.ok ()) →
      (typedText (zhihuAfterTitle title c d env).trace = "" ∨
        typedText (zhihuAfterTitle title c d env).trace = title ++ c)) ∧
    (∀ u, Ev.connect u ∈ (zhihuAfterTitle title c d env).trace → u = CDP_URL) ∧
    ((zhihuAfterTitle title c d env).res = Except.ok zhNoTitleInputStr →
      Ev.screenshot "/tmp/zhihu_debug.png" ∈
        (zhihuAfterTitle title c d env).trace) ∧
    ((zhihuAfterTitle title c d env).res = Except.ok zhNoPublishBtnStr →
      Ev.screenshot "/tmp/zhihu_debug.png" ∈
        (zhihuAfterTitle title c d env).trace) ∧
    (∀ u, (zhihuAfterTitle title c d env).res = Except.ok (zhUncertainStr u) →
      Ev.screenshot "/tmp/zhihu_result.png" ∈
        (zhihuAfterTitle title c d env).trace) := by
  obtain ⟨i1, i2, i3, i4, i5, i6, i7⟩ := zhihuCatch_facts title c env
  by_cases hd : d = true
  · subst hd
    refine ⟨by simp [zhihuAfterTitle], Or.inl (by simp [zhihuAfterTitle]),
      fun _ => Or.inl (by simp [zhihuAfterTitle]), ?_, fun h => ?_,
      fun h => ?_, fun u h => ?_⟩
    · intro u hu
      simp [zhihuAfterTitle] at hu
    · simp [zhihuAfterTitle] at h
      exact absurd h (by decide)
    · simp [zhihuAfterTitle] at h
      exact absurd h (by decide)
    · simp [zhihuAfterTitle, zhUncertainStr] at h
      exact absurd h.symm
        (append_ne_of_head "⚠️  Uncertain if published. Current URL: " _ _ 0
          (by decide) (by decide))
  · cases hcn : env.connect with
    | error e =>
      refine ⟨by simp [zhihuAfterTitle, hd, hcn],
        Or.inl (by simp [zhihuAfterTitle, hd, hcn]),
        fun _ => Or.inl (by simp [zhihuAfterTitle, hd, hcn]), ?_, fun h => ?_,
        fun h => ?_, fun u h => ?_⟩
      · intro u hu
        simp [zhihuAfterTitle, hd, hcn] at hu
        exact hu
      · simp [zhihuAfterTitle, hd, hcn, connectFailStr] at h
        exact absurd h
          (append_ne_of_head "❌ Failed to connect to browser: " _ _ 2
            (by decide) (by decide))
      · simp [zhihuAfterTitle, hd, hcn, connectFailStr] at h
        exact absurd h
          (append_ne_of_head "❌ Failed to connect to browser: " _ _ 2
            (by decide) (by decide))
      · simp [zhihuAfterTitle, hd, hcn, connectFailStr, zhUncertainStr] at h
        exact absurd h
          (append_ne_append "❌ Failed to connect to browser: " _
            "⚠️  Uncertain if published. Current URL: " _ 0 (by decide)
            (by decide) (by decide))
    | ok uu =>
      by_cases hcx : env.contextsNonempty = true
      · cases hnp : env.newPage with
        | error e =>
          refine ⟨by simp [zhihuAfterTitle, hd, hcn, hcx, hnp],
            Or.inl (by simp [zhihuAfterTitle, hd, hcn, hcx, hnp]),
            fun _ => Or.inl (by simp [zhihuAfterTitle, hd, hcn, hcx, hnp]), ?_,
            fun h => ?_, fun h => ?_, fun u h => ?_⟩
          · intro u hu
            simp [zhihuAfterTitle, hd, hcn, hcx, hnp] at hu
            exact hu
          · simp [zhihuAfterTitle, hd, hcn, hcx, hnp] at h
          · simp [zhihuAfterTitle, hd, hcn, hcx, hnp] at h
          · simp [zhihuAfterTitle, hd, hcn, hcx, hnp] at h
        | ok u0 =>
          refine ⟨?_, ?_, fun hall => ?_, ?_, fun h => ?_, fun h => ?_,
            fun u h => ?_⟩
          · simp [zhihuAfterTitle, hd, hcn, hcx, hnp]
            exact i1
          · rcases i2 with h2 | ⟨k, hk⟩
            · exact Or.inl (by simp [zhihuAfterTitle, hd, hcn, hcx, hnp, h2])
            · exact Or.inr ⟨k, by simp [zhihuAfterTitle, hd, hcn, hcx, hnp, hk]⟩
          · rcases i3 hall with h3 | h3
            · exact Or.inl (by simp [zhihuAfterTitle, hd, hcn, hcx, hnp, h3])
            · exact Or.inr (by simp [zhihuAfterTitle, hd, hcn, hcx, hnp, h3])
          · intro u hu
            simp [zhihuAfterTitle, hd, hcn, hcx, hnp] at hu
            rcases hu with rfl | hu
            · rfl
            · exact absurd hu (i4 u)
          · simp [zhihuAfterTitle, hd, hcn, hcx, hnp] at h ⊢
            have := i5 h
            simp [this]
          · simp [zhihuAfterTitle, hd, hcn, hcx, hnp] at h ⊢
            have := i6 h
            simp [this]
          · simp [zhihuAfterTitle, hd, hcn, hcx, hnp] at h ⊢
            have := i7 u h
            simp [this]
      · refine ⟨by simp [zhihuAfterTitle, hd, hcn, hcx],
          Or.inl (by simp [zhihuAfterTitle, hd, hcn, hcx]),
          fun _ => Or.inl (by simp [zhihuAfterTitle, hd, hcn, hcx]), ?_,
          fun h => ?_, fun h => ?_, fun u h => ?_⟩
        · intro u hu
          simp [zhihuAfterTitle, hd, hcn, hcx] at hu
          exact hu
        · simp [zhihuAfterTitle, hd, hcn, hcx] at h
          exact absurd h (by decide)
        · simp [zhihuAfterTitle, hd, hcn, hcx] at h
          exact absurd h (by decide)
        · simp [zhihuAfterTitle, hd, hcn, hcx, zhUncertainStr] at h
          exact absurd h.symm
            (append_ne_of_head "⚠️  Uncertain if published. Current URL: " _ _
              0 (by decide) (by decide))

theorem post_article_facts (t c : String) (d : Bool) (env : ZhihuEnv) :
    List.Sublist (probes (post_article t c d env).trace) zhProbeBound ∧
    (typedText (post_article t c d env).trace = "" ∨
      ∃ k, typedText (post_article t c d env).trace =
        (if 100 < t.length then zhTruncTitle t else t) ++
          strJoin ((zhihuChunks c).take k)) ∧
    ((∀ j, env.typeChunk j = Except.ok ()) →
      (typedText (post_article t c d env).trace = "" ∨
        typedText (post_article t c d env).trace =
          (if 100 < t.length then zhTruncTitle t else t) ++ c)) ∧
    (∀ u, Ev.connect u ∈ (post_article t c d env).trace → u = CDP_URL) ∧
    ((post_article t c d env).res = Except.ok zhNoTitleInputStr →
      Ev.screenshot "/tmp/zhihu_debug.png" ∈ (post_article t c d env).trace) ∧
    ((post_article t c d env).res = Except.ok zhNoPublishBtnStr →
      Ev.screenshot "/tmp/zhihu_debug.png" ∈ (post_article t c d env).trace) ∧
    (∀ u, (post_article t c d env).res = Except.ok (zhUncertainStr u) →
      Ev.screenshot "/tmp/zhihu_result.png" ∈ (post_article t c d env).trace) := by
  by_cases hw : 100 < t.length
  · obtain ⟨a1, a2, a3, a4, a5, a6, a7⟩ :=
      zhihuAfterTitle_facts (zhTruncTitle t) c d env
    refine ⟨?_, ?_, fun hall => ?_, ?_, fun h => ?_, fun h => ?_,
      fun u h => ?_⟩
    · simp [post_article, hw]
      exact a1
    · rcases a2 with h2 | ⟨k, hk⟩
      · exact Or.inl (by simp [post_article, hw, h2])
      · exact Or.inr ⟨k, by simp [post_article, hw, hk]⟩
    · rcases a3 hall with h3 | h3
      · exact Or.inl (by simp [post_article, hw, h3])
      · exact Or.inr (by simp [post_article, hw, h3])
    · intro u hu
      simp [post_article, hw] at hu
      exact a4 u hu
    · simp [post_article, hw] at h ⊢
      exact a5 h
    · simp [post_article, hw] at h ⊢
      exact a6 h
    · simp [post_article, hw] at h ⊢
      exact a7 u h
  · obtain ⟨a1, a2, a3, a4, a5, a6, a7⟩ := zhihuAfterTitle_facts t c d env
    refine ⟨?_, ?_, fun hall => ?_, ?_, fun h => ?_, fun h => ?_,
      fun u h => ?_⟩
    · simp [post_article, hw]
      exact a1
    · rcases a2 with h2 | ⟨k, hk⟩
      · exact Or.inl (by simp [post_article, hw, h2])
      · exact Or.inr ⟨k, by simp [post_article, hw, hk]⟩
    · rcases a3 hall with h3 | h3
      · exact Or.inl (by simp [post_article, hw, h3])
      · exact Or.inr (by simp [post_article, hw, h3])
    · intro u hu
      simp [post_article, hw] at hu
      exact a4 u hu
    · simp [post_article, hw] at h ⊢
      exact a5 h
    · simp [post_article, hw] at h ⊢
      exact a6 h
    · simp [post_article, hw] at h ⊢
      exact a7 u h

/-! ## Claim theorems -/

/-- C2: with the dry-run flag set, both posting operations print a preview
of the would-be payload, perform no network or UI action (every recorded
event is a console print, so no connection, navigation, lookup, click or
keystroke happens), and return the string "DRY_RUN". -/
theorem dry_run_preview_only (content : String) (reply_to : Option String)
    (env : TwitterEnv) (title zcontent : String) (zenv : ZhihuEnv) :
    (post_tweet content reply_to true env).res = Except.ok "DRY_RUN" ∧
    (∀ e ∈ (post_tweet content reply_to true env).trace, ∃ s, e = Ev.printLn s) ∧
    Ev.printLn ("📝 Preview:\n" ++ (content ++ "\n")) ∈
      (post_tweet content reply_to true env).trace ∧
    (post_article title zcontent true zenv).res = Except.ok "DRY_RUN" ∧
    (∀ e ∈ (post_article title zcontent true zenv).trace, ∃ s, e = Ev.printLn s) ∧
    Ev.printLn ("\n--- Content ---\n" ++ zhExcerpt zcontent) ∈
      (post_article title zcontent true zenv).trace := by
  by_cases hw : 280 < content.length <;>
    by_cases hrr : truthyOpt reply_to = true <;>
    by_cases hz : 100 < title.length <;>
    refine ⟨by simp [post_tweet, hw, hrr], ?_,
      by simp [post_tweet, hw, hrr],
      by simp [post_article, zhihuAfterTitle, hz], ?_,
      by simp [post_article, zhihuAfterTitle, hz]⟩
  all_goals
    intro e he
    simp [post_tweet, post_article, zhihuAfterTitle, hw, hrr, hz] at he
    rcases he with rfl | rfl | rfl | rfl | rfl | rfl <;> exact ⟨_, rfl⟩

/-- C8: the Zhihu dry-run body excerpt is exactly the first 500 characters
of the content, with "..." appended precisely when the content is longer
than 500 characters, and the dry run prints it. -/
theorem zhihu_dry_run_excerpt (title content : String) (env : ZhihuEnv) :
    zhExcerpt content =
      (if content.length ≤ 500 then content
        else pyTake content 500 ++ "...") ∧
    Ev.printLn ("\n--- Content ---\n" ++ zhExcerpt content) ∈
      (post_article title content true env).trace := by
  constructor
  · unfold zhExcerpt
    by_cases h : content.length ≤ 500
    · have hnot : ¬(500 < content.length) := by omega
      have htake : pyTake content 500 = content := by
        unfold pyTake
        rw [List.take_of_length_le h]
      simp [h, hnot, htake]
    · have hlt : 500 < content.length := by omega
      simp [h, hlt]
  · by_cases hz : 100 < title.length <;>
      simp [post_article, zhihuAfterTitle, hz]

/-- C10: the Zhihu body-typing loop splits the content into consecutive
50-character chunks (every chunk except possibly the last has exactly 50
characters, no chunk is empty or longer than 50), their concatenation is
exactly the original content; whatever the browser does, the loop types
exactly the chunks of a prefix of that list, the whole of it — hence the
original content — whenever the loop completes, which it does whenever
every chunk keystroke succeeds. -/
theorem zhihu_chunking (content : String) (env : ZhihuEnv) :
    strJoin (zhihuChunks content) = content ∧
    (∀ ch ∈ zhihuChunks content, ch.length ≤ 50 ∧ ch ≠ "") ∧
    (∀ ch ∈ (zhihuChunks content).dropLast, ch.length = 50) ∧
    (∃ k, typedText (typeChunks env 0 (zhihuChunks content)).trace =
      strJoin ((zhihuChunks content).take k)) ∧
    ((typeChunks env 0 (zhihuChunks content)).res = Except.ok () →
      typedText (typeChunks env 0 (zhihuChunks content)).trace = content) ∧
    ((∀ j, env.typeChunk j = Except.ok ()) →
      (typeChunks env 0 (zhihuChunks content)).res = Except.ok ()) := by
  obtain ⟨tcmem, htk, tcfull, tcok⟩ :=
    typeChunks_facts env (zhihuChunks content) 0
  refine ⟨zhihuChunks_join content, ?_, ?_, htk, fun hok => ?_, tcok⟩
  · intro ch hch
    unfold zhihuChunks chunkIdx at hch
    obtain ⟨l, hl, rfl⟩ := List.mem_map.mp hch
    obtain ⟨h1, h2⟩ := chunkIdxFuel_mem _ _ _ _ hl
    refine ⟨h1, ?_⟩
    intro hs
    apply h2
    have : (String.mk l).data = ("" : String).data := by rw [hs]
    simpa using this
  · intro ch hch
    unfold zhihuChunks chunkIdx at hch
    rw [← List.map_dropLast] at hch
    obtain ⟨l, hl, rfl⟩ := List.mem_map.mp hch
    exact chunkIdxFuel_dropLast _ _ _ _ hl
  · rw [tcfull hok, zhihuChunks_join]

/-- C3 counterexample: with a 101-character title, the Zhihu script does not
inject the title the caller supplied; the text typed into the page is the
title truncated to 100 characters, followed by the body. -/
theorem title_truncation_counterexample :
    typedText (post_article longTitle "B" false zhEnvTyping).trace =
      String.mk (List.replicate 100 'a') ++ "B" ∧
    typedText (post_article longTitle "B" false zhEnvTyping).trace ≠
      longTitle ++ "B" := by
  constructor <;> decide

/-- `strJoin` of the first `k` chunks is a prefix of the content. -/
theorem strJoin_take_prefix (content : String) (k : Nat) :
    List.IsPrefix (strJoin ((zhihuChunks content).take k)).data content.data := by
  refine ⟨(strJoin ((zhihuChunks content).drop k)).data, ?_⟩
  rw [← strData_append, ← strJoin_append, List.take_append_drop,
    zhihuChunks_join]

/-- C3 (amended): the length limits are advisory for the tweet body — the
tweet text injected, when any is, is the caller's content unchanged — while
the title limit is enforced: the article injection starts with the caller's
title truncated to its first 100 characters when it exceeds 100.  The
article body is never altered either, but a keystroke failure can cut it
short: what is injected after the title is always a chunk-aligned prefix of
the caller's body, and it is the whole body whenever every chunk keystroke
of the typing loop succeeds. -/
theorem injected_text_amended (c : String) (r : Option String) (d : Bool)
    (env : TwitterEnv) (t zc : String) (zd : Bool) (zenv : ZhihuEnv) :
    (typedText (post_tweet c r d env).trace = "" ∨
      typedText (post_tweet c r d env).trace = c) ∧
    (typedText (post_article t zc zd zenv).trace = "" ∨
      ∃ k, typedText (post_article t zc zd zenv).trace =
        (if 100 < t.length then zhTruncTitle t else t) ++
          strJoin ((zhihuChunks zc).take k)) ∧
    (∀ k, List.IsPrefix (strJoin ((zhihuChunks zc).take k)).data zc.data) ∧
    ((∀ j, zenv.typeChunk j = Except.ok ()) →
      (typedText (post_article t zc zd zenv).trace = "" ∨
        typedText (post_article t zc zd zenv).trace =
          (if 100 < t.length then zhTruncTitle t else t) ++ zc)) :=
  ⟨(post_tweet_facts c r d env).2.1, (post_article_facts t zc zd zenv).2.1,
   fun k => strJoin_take_prefix zc k,
   (post_article_facts t zc zd zenv).2.2.1⟩

/-- C3 amended witness: with a healthy editor the injected text is the
(short, untruncated) title followed by the whole body. -/
theorem injected_text_amended_witness :
    typedText (post_article "T" "ab" false zhEnvTyping).trace = "" ∨
    typedText (post_article "T" "ab" false zhEnvTyping).trace =
      (if 100 < String.length "T" then zhTruncTitle "T" else "T") ++ "ab" :=
  (injected_text_amended "x" none true twEnvOk "T" "ab" false
    zhEnvTyping).2.2.2 (fun _ => rfl)

/-- C7: the only endpoint either script ever connects to is the fixed local
CDP URL `http://127.0.0.1:18800`: whatever the arguments, file contents and
browser behaviour, every connect event in a run's trace carries that URL. -/
theorem fixed_cdp_endpoint (c : String) (r : Option String) (d : Bool)
    (env : TwitterEnv) (t zc : String) (zd : Bool) (zenv : ZhihuEnv)
    (u v : String) :
    (Ev.connect u ∈ (post_tweet c r d env).trace →
      u = "http://127.0.0.1:18800") ∧
    (Ev.connect v ∈ (post_article t zc zd zenv).trace →
      v = "http://127.0.0.1:18800") := by
  constructor
  · intro hu
    exact ((post_tweet_facts c r d env).2.2.1 u hu).trans rfl
  · intro hv
    exact ((post_article_facts t zc zd zenv).2.2.2.1 v hv).trans rfl

/-- C7 witness: a run that does reach the browser connects to the fixed
endpoint. -/
theorem fixed_cdp_endpoint_witness : CDP_URL = "http://127.0.0.1:18800" :=
  (fixed_cdp_endpoint "hi" none false twEnvNoTextbox "T" "B" false zhEnvTyping
    CDP_URL CDP_URL).1 (by decide)

/-- C5: whenever a run ends with a missing-textbox, missing-title-input,
missing-publish-button or uncertain outcome, a screenshot has been saved to
local disk and the returned status string contains that screenshot's path. -/
theorem screenshot_on_ambiguous_outcome (c : String) (r : Option String)
    (d : Bool) (env : TwitterEnv) (t zc : String) (zd : Bool)
    (zenv : ZhihuEnv) :
    ((post_tweet c r d env).res = Except.ok tweetNoTextboxStr →
      Ev.screenshot "/tmp/twitter_debug.png" ∈ (post_tweet c r d env).trace ∧
      pyIn "/tmp/twitter_debug.png" tweetNoTextboxStr = true) ∧
    ((post_tweet c r d env).res = Except.ok tweetUncertainStr →
      Ev.screenshot "/tmp/twitter_debug.png" ∈ (post_tweet c r d env).trace ∧
      pyIn "/tmp/twitter_debug.png" tweetUncertainStr = true) ∧
    ((post_article t zc zd zenv).res = Except.ok zhNoTitleInputStr →
      Ev.screenshot "/tmp/zhihu_debug.png" ∈ (post_article t zc zd zenv).trace ∧
      pyIn "/tmp/zhihu_debug.png" zhNoTitleInputStr = true) ∧
    ((post_article t zc zd zenv).res = Except.ok zhNoPublishBtnStr →
      Ev.screenshot "/tmp/zhihu_debug.png" ∈ (post_article t zc zd zenv).trace ∧
      pyIn "/tmp/zhihu_debug.png" zhNoPublishBtnStr = true) ∧
    (∀ u, (post_article t zc zd zenv).res = Except.ok (zhUncertainStr u) →
      Ev.screenshot "/tmp/zhihu_result.png" ∈ (post_article t zc zd zenv).trace ∧
      pyIn "/tmp/zhihu_result.png" (zhUncertainStr u) = true) := by
  obtain ⟨_, _, _, t4, t5⟩ := post_tweet_facts c r d env
  obtain ⟨_, _, _, _, z5, z6, z7⟩ := post_article_facts t zc zd zenv
  refine ⟨fun h => ⟨t4 h, by decide⟩, fun h => ⟨t5 h, by decide⟩,
    fun h => ⟨z5 h, by decide⟩, fun h => ⟨z6 h, by decide⟩,
    fun u h => ⟨z7 u h, ?_⟩⟩
  unfold zhUncertainStr
  apply pyIn_append_right
  apply pyIn_append_right
  decide

/-- C5 witness: a browser in which no textbox selector matches ends with the
missing-textbox outcome, saves the debug screenshot, and reports its path. -/
theorem screenshot_on_ambiguous_outcome_witness :
    Ev.screenshot "/tmp/twitter_debug.png" ∈
      (post_tweet "hi" none false twEnvNoTextbox).trace ∧
    pyIn "/tmp/twitter_debug.png" tweetNoTextboxStr = true :=
  (screenshot_on_ambiguous_outcome "hi" none false twEnvNoTextbox "T" "B"
    false zhEnvTyping).1 (by decide)

/-- C9: when the loaded content strips to the empty string, each `main`
prints "❌ No content provided" and exits with status 1 before the posting
operation (for the Zhihu script, provided the title check has passed, since
a missing title exits even earlier); in no case is a posting operation ever
invoked with empty content. -/
theorem empty_content_never_posted (args : TwitterArgs) (zargs : ZhihuArgs)
    (fileText : String → String) (stdin : Stdin) :
    (twResolveContent args fileText stdin = some "" →
      twitterMain args fileText stdin =
        TwMain.exit 1 false (some "❌ No content provided")) ∧
    (∀ c reply dr, twitterMain args fileText stdin = TwMain.post c reply dr →
      c ≠ "") ∧
    (truthyOpt (if truthyOpt zargs.titleOpt then zargs.titleOpt
        else zargs.title) = true →
      zhResolveContent zargs fileText stdin = ZhResolve.got "" →
      zhihuMain zargs fileText stdin =
        ZhMain.exit 1 false (some "❌ No content provided")) ∧
    (∀ t c dr, zhihuMain zargs fileText stdin = ZhMain.post t c dr →
      c ≠ "") := by
  refine ⟨fun h => ?_, fun c reply dr h => ?_, fun ht h => ?_,
    fun t c dr h => ?_⟩
  · simp [twitterMain, h]
  · cases hres : twResolveContent args fileText stdin with
    | none => simp [twitterMain, hres] at h
    | some s =>
      by_cases hs : s = ""
      · simp [twitterMain, hres, hs] at h
      · simp [twitterMain, hres, hs] at h
        obtain ⟨rfl, -, -⟩ := h
        exact hs
  · simp [zhihuMain, ht, h]
  · unfold zhihuMain at h
    by_cases ht : truthyOpt (if truthyOpt zargs.titleOpt then zargs.titleOpt
        else zargs.title) = true
    · cases hres : zhResolveContent zargs fileText stdin with
      | exitHelp m => simp [ht, hres] at h
      | got s =>
        by_cases hs : s = ""
        · simp [ht, hres, hs] at h
        · simp [ht, hres, hs] at h
          obtain ⟨-, rfl, -⟩ := h
          exact hs
    · simp [ht] at h

/-- C9 witness: a file of pure whitespace strips to nothing and both scripts
stop with "❌ No content provided" and exit code 1. -/
theorem empty_content_never_posted_witness :
    twitterMain ⟨none, some "f.txt", none, false⟩ ftBlank ⟨true, ""⟩ =
      TwMain.exit 1 false (some "❌ No content provided") ∧
    zhihuMain ⟨some "T", none, none, some "f.txt", false⟩ ftBlank ⟨true, ""⟩ =
      ZhMain.exit 1 false (some "❌ No content provided") :=
  ⟨(empty_content_never_posted ⟨none, some "f.txt", none, false⟩
      ⟨some "T", none, none, some "f.txt", false⟩ ftBlank ⟨true, ""⟩).1
      (by decide),
   (empty_content_never_posted ⟨none, some "f.txt", none, false⟩
      ⟨some "T", none, none, some "f.txt", false⟩ ftBlank ⟨true, ""⟩).2.2.1
      (by decide) (by decide)⟩

/-- C4 counterexample: the Zhihu script does not fall back to piped stdin
when the title was given with -t (it prints help and exits instead of
posting the piped content), and the Twitter script skips an empty-string
literal content argument in favour of stdin instead of using it. -/
theorem content_resolution_counterexample :
    zhihuMain ⟨none, none, some "T", none, false⟩ ftEmpty ⟨false, "hello"⟩ =
      ZhMain.exit 1 true (some "❌ Content is required") ∧
    zhihuMain ⟨none, none, some "T", none, false⟩ ftEmpty ⟨false, "hello"⟩ ≠
      ZhMain.post "T" "hello" false ∧
    twitterMain ⟨some "", none, none, false⟩ ftEmpty ⟨false, "piped"⟩ =
      TwMain.post "piped" none false := by
  refine ⟨by decide, by decide, by decide⟩

@[simp] theorem truthyOpt_none : truthyOpt none = false := rfl

@[simp] theorem truthyOpt_some (s : String) :
    truthyOpt (some s) = decide (s ≠ "") := rfl

/-- C4 (amended): content loading follows the fixed precedence file text
(stripped) → literal argument → piped stdin (stripped), where an argument
equal to the empty string counts as not given, and where the Zhihu script
consults stdin only when the title was passed positionally rather than via
-t; when no source is available the script prints help and exits without
posting. -/
theorem content_resolution_amended (args : TwitterArgs) (zargs : ZhihuArgs)
    (fileText : String → String) (stdin : Stdin) :
    twResolveContent args fileText stdin =
      claimResolve (truthyOpt args.file) (fileText (args.file.getD ""))
        (truthyOpt args.content) (args.content.getD "") (!stdin.isatty)
        stdin.text true ∧
    (∀ c, zhResolveContent zargs fileText stdin = ZhResolve.got c ↔
      claimResolve (truthyOpt zargs.file) (fileText (zargs.file.getD ""))
        (truthyOpt zargs.content) (zargs.content.getD "") (!stdin.isatty)
        stdin.text (truthyOpt zargs.title && !truthyOpt zargs.titleOpt) =
        some c) ∧
    (twResolveContent args fileText stdin = none →
      twitterMain args fileText stdin = TwMain.exit 1 true none) ∧
    (claimResolve (truthyOpt zargs.file) (fileText (zargs.file.getD ""))
        (truthyOpt zargs.content) (zargs.content.getD "") (!stdin.isatty)
        stdin.text (truthyOpt zargs.title && !truthyOpt zargs.titleOpt) =
        none →
      ∀ t c dr, zhihuMain zargs fileText stdin ≠ ZhMain.post t c dr) := by
  have hiff : ∀ c, zhResolveContent zargs fileText stdin = ZhResolve.got c ↔
      claimResolve (truthyOpt zargs.file) (fileText (zargs.file.getD ""))
        (truthyOpt zargs.content) (zargs.content.getD "") (!stdin.isatty)
        stdin.text (truthyOpt zargs.title && !truthyOpt zargs.titleOpt) =
        some c := by
    intro c
    unfold zhResolveContent claimResolve
    by_cases hf : truthyOpt zargs.file = true
    · simp [hf]
    · cases hc : zargs.content with
      | none =>
        by_cases hta :
            (truthyOpt zargs.title && !truthyOpt zargs.titleOpt) = true <;>
          by_cases hst : stdin.isatty <;>
          simp [hf, hc, hta, hst]
      | some sc =>
        by_cases hs : sc = ""
        · by_cases hta :
              (truthyOpt zargs.title && !truthyOpt zargs.titleOpt) = true <;>
            by_cases hst : stdin.isatty <;>
            simp [hf, hc, hta, hst, hs]
        · simp [hf, hc, hs]
  refine ⟨?_, hiff, fun h => ?_, fun h t c dr hpost => ?_⟩
  · unfold twResolveContent claimResolve
    by_cases hf : truthyOpt args.file = true
    · simp [hf]
    · cases hc : args.content with
      | none => simp [hf, hc]
      | some sc =>
        by_cases hs : sc = ""
        · simp [hf, hc, hs]
        · simp [hf, hc, hs]
  · simp [twitterMain, h]
  · unfold zhihuMain at hpost
    by_cases ht : truthyOpt (if truthyOpt zargs.titleOpt then zargs.titleOpt
        else zargs.title) = true
    · cases hres : zhResolveContent zargs fileText stdin with
      | exitHelp m => simp [ht, hres] at hpost
      | got sc =>
        have := (hiff sc).mp hres
        rw [h] at this
        exact absurd this (by simp)
    · simp [ht] at hpost

/-- C4 amended witness: with nothing supplied and an interactive stdin both
scripts print help and exit without posting. -/
theorem content_resolution_amended_witness :
    twitterMain ⟨none, none, none, false⟩ ftEmpty ⟨true, ""⟩ =
      TwMain.exit 1 true none ∧
    zhihuMain ⟨some "T", none, none, none, false⟩ ftEmpty ⟨true, ""⟩ ≠
      ZhMain.post "T" "x" false :=
  ⟨(content_resolution_amended ⟨none, none, none, false⟩
      ⟨some "T", none, none, none, false⟩ ftEmpty ⟨true, ""⟩).2.2.1
      (by decide),
   (content_resolution_amended ⟨none, none, none, false⟩
      ⟨some "T", none, none, none, false⟩ ftEmpty ⟨true, ""⟩).2.2.2
      (by decide) "T" "x" false⟩

/-- C2 witness: a concrete dry run returns "DRY_RUN" and its recorded
events are console prints. -/
theorem dry_run_preview_only_witness :
    (post_tweet "hi" none true twEnvOk).res = Except.ok "DRY_RUN" ∧
    (∃ s, Ev.printLn ("📝 Preview:\n" ++ ("hi" ++ "\n")) = Ev.printLn s) :=
  ⟨(dry_run_preview_only "hi" none twEnvOk "T" "B" zhEnvTyping).1,
   (dry_run_preview_only "hi" none twEnvOk "T" "B" zhEnvTyping).2.1 _
     (by decide)⟩

/-- C10 witness: a concrete content is chunked, joined back and, in a
browser whose keystrokes succeed, typed exactly. -/
theorem zhihu_chunking_witness :
    strJoin (zhihuChunks "abc") = "abc" ∧
    (String.length "abc" ≤ 50 ∧ "abc" ≠ "") ∧
    typedText (typeChunks zhEnvTyping 0 (zhihuChunks "abc")).trace = "abc" :=
  ⟨(zhihu_chunking "abc" zhEnvTyping).1,
   (zhihu_chunking "abc" zhEnvTyping).2.1 "abc" (by decide),
   (zhihu_chunking "abc" zhEnvTyping).2.2.2.2.1 (by decide)⟩
